import Mathlib

/-!
Verification of the Tenglish converter (`app.py`).

The conversion pipeline of the app is shallowly embedded here over `List Char`
(`Str`).  Python strings are modelled as lists of characters; the ASCII
fragments of Python's `str.lower`, `str.upper`, `str.isupper`, `str.strip`,
`str.split` and of the `re` character classes `\s`, `\w`, `[a-zA-Z']` are
modelled by executable predicates on `Char` (the source only ever feeds the
relevant passes ASCII text and all replacement data is ASCII).  The regex
substitutions of the source all have the shape
`re.sub(r"\b" + literal + r"\b", replacement, s)`, optionally with
`re.IGNORECASE`; they are modelled by a left-to-right, non-overlapping scan
(`subGo`) that checks word boundaries exactly as `re` does (a boundary falls
between two positions whose word-character status differs, with both ends of
the string counting as non-word).  Python dicts are modelled as association
lists with insert-or-overwrite-in-place (`pyDictInsert`), preserving key
insertion order as Python dicts do.  Scans that consume more than one
character per step take a fuel argument (always instantiated with the length
of the scanned string) so that every definition is structurally recursive and
evaluates inside the kernel.
-/

namespace Tenglish

/-- A Python string, as a list of characters. -/
abbrev Str := List Char

/-- ASCII upper-case letter (Python `str.isupper` on the source's data). -/
def isUpperA (c : Char) : Bool := 65 ≤ c.toNat && c.toNat ≤ 90

/-- ASCII lower-case letter. -/
def isLowerA (c : Char) : Bool := 97 ≤ c.toNat && c.toNat ≤ 122

/-- ASCII letter, the `[a-zA-Z]` of `WORD_RE`. -/
def isLetterA (c : Char) : Bool := isUpperA c || isLowerA c

/-- ASCII digit. -/
def isDigitA (c : Char) : Bool := 48 ≤ c.toNat && c.toNat ≤ 57

/-- Word character of the regex `\b` / `\w` classes: letter, digit or `_`. -/
def isWordCharA (c : Char) : Bool := isLetterA c || isDigitA c || c = '_'

/-- Python whitespace (`\s`, `str.split`, `str.strip`): space, TAB, LF, VT, FF, CR. -/
def isSpaceA (c : Char) : Bool :=
  c.toNat = 32 || c.toNat = 9 || c.toNat = 10 || c.toNat = 11 || c.toNat = 12 || c.toNat = 13

/-- The punctuation class of `PUNCT_RE`: `[.!?,;:]`. -/
def isPunctA (c : Char) : Bool :=
  c = '.' || c = '!' || c = '?' || c = ',' || c = ';' || c = ':'

/-- ASCII `str.lower` on one character. -/
def toLowerA (c : Char) : Char := if isUpperA c then Char.ofNat (c.toNat + 32) else c

/-- ASCII `str.upper` on one character. -/
def toUpperA (c : Char) : Char := if isLowerA c then Char.ofNat (c.toNat - 32) else c

/-- Python `str.lower`. -/
def pyLower (s : Str) : Str := s.map toLowerA

/-- Python `str.strip`: drop whitespace from both ends. -/
def pyStrip (s : Str) : Str :=
  ((s.dropWhile isSpaceA).reverse.dropWhile isSpaceA).reverse

/-- Fueled scan behind `pySplit`. -/
def pySplitF : Nat → Str → List Str
  | _, [] => []
  | 0, _ :: _ => []
  | fuel + 1, c :: rest =>
    if isSpaceA c then pySplitF fuel rest
    else
      ((c :: rest).takeWhile (fun x => !isSpaceA x)) ::
        pySplitF fuel ((c :: rest).dropWhile (fun x => !isSpaceA x))

/-- Python `str.split()` with no argument: maximal non-whitespace runs. -/
def pySplit (s : Str) : List Str := pySplitF s.length s

/-- Python `" ".join`. -/
def joinSpace : List Str → Str
  | [] => []
  | [x] => x
  | x :: y :: rest => x ++ ' ' :: joinSpace (y :: rest)

/-- Word-character status of the first character (end of string is non-word). -/
def wordHead : Str → Bool
  | [] => false
  | c :: _ => isWordCharA c

/-- Does the literal pattern `pat` match at the start of `s`, with a `\b`
word boundary on each side?  `prevW` is the word-character status of the
character just before the current position; `ci` selects `re.IGNORECASE`
(patterns in the source are lower-case, so a case-insensitive match is a
match of the pattern against the lowered window). -/
def bMatch (ci : Bool) (pat : Str) (prevW : Bool) (s : Str) : Bool :=
  (if ci then pat.isPrefixOf (s.map toLowerA) else pat.isPrefixOf s)
    && (prevW != wordHead pat)
    && (isWordCharA (pat.getLastD ' ') != wordHead (s.drop pat.length))

/-- Fueled scan behind `subWordAll`: the scan of `re.sub(r"\b<pat>\b", rep, s)`
for a literal `pat` — left-to-right, non-overlapping, resuming after each
match (the boundary state after a match is the word status of the pattern's
last character). -/
def subGo (ci : Bool) (pat rep : Str) : Nat → Bool → Str → Str
  | _, _, [] => []
  | 0, _, s => s
  | fuel + 1, prevW, c :: rest =>
    if !pat.isEmpty && bMatch ci pat prevW (c :: rest) then
      rep ++ subGo ci pat rep fuel (isWordCharA (pat.getLastD ' ')) ((c :: rest).drop pat.length)
    else
      c :: subGo ci pat rep fuel (isWordCharA c) rest

/-- `re.sub(r"\b<pat>\b", rep, s)` for a literal pattern `pat`. -/
def subWordAll (ci : Bool) (pat rep s : Str) : Str := subGo ci pat rep s.length false s

/-- The scan of `re.search(r"\b<pat>\b", s)`: is there a boundary-delimited
occurrence of the literal `pat`? -/
def occGo (ci : Bool) (pat : Str) : Bool → Str → Bool
  | _, [] => false
  | prevW, c :: rest => bMatch ci pat prevW (c :: rest) || occGo ci pat (isWordCharA c) rest

/-- Case-sensitive `re.search(r"\b<pat>\b", s) is not None`. -/
def containsWordB (pat s : Str) : Bool := occGo false pat false s

/-- Fueled scan behind `normalize_spaces`: `re.sub(r"\s+", " ", s)` collapses
each maximal whitespace run into a single space. -/
def collapseWsF : Nat → Str → Str
  | _, [] => []
  | 0, s => s
  | fuel + 1, c :: rest =>
    if isSpaceA c then ' ' :: collapseWsF fuel (rest.dropWhile isSpaceA)
    else c :: collapseWsF fuel rest

/-- `normalize_spaces` of the source: collapse whitespace runs, then strip. -/
def normalize_spaces (s : Str) : Str := pyStrip (collapseWsF s.length s)

/-- `PUNCT_RE.sub(r" \\1 ", text)`: in the source the replacement raw string
holds a double backslash, so `re.sub` emits a literal backslash followed by
the digit `1` — each punctuation mark is replaced by the four characters
`space backslash one space`, not by itself surrounded by spaces. -/
def punctSpace : Str → Str
  | [] => []
  | c :: rest => (if isPunctA c then [' ', '\\', '1', ' '] else [c]) ++ punctSpace rest

/-- `tokenize` of the source. -/
def tokenize (text : Str) : List Str :=
  (pySplit (punctSpace text)).filter (fun p => !(pyStrip p).isEmpty)

/-- `is_word` of the source: `WORD_RE = ^[a-zA-Z']+$` matches. -/
def is_word (tok : Str) : Bool :=
  !tok.isEmpty && tok.all (fun c => isLetterA c || c = '\'')

/-- `english_plural_to_singular` of the source. -/
def english_plural_to_singular (word : Str) : Str :=
  if "ies".data.isSuffixOf word && word.length > 3 then
    word.take (word.length - 3) ++ ['y']
  else if "s".data.isSuffixOf word && word.length > 3 && !("ss".data.isSuffixOf word) then
    word.dropLast
  else word

/-- Shorthand for one (pattern, replacement) pair. -/
def kv (k v : String) : Str × Str := (k.data, v.data)

/-- `PHRASES` of the source, in order. -/
def PHRASES : List (Str × Str) :=
  [ kv "thanks a lot" "chala thanks",
    kv "thank you" "chala thanks",
    kv "thank u" "chala thanks",
    kv "thanks" "thanks",
    kv "good morning" "good morning",
    kv "good night" "good night",
    kv "i love you" "nenu ninnu premistunna",
    kv "i miss you" "nenu ninnu miss avtunna",
    kv "what are you doing" "em chestunnav",
    kv "what is this" "idi enti",
    kv "how are you" "ela unnav",
    kv "i am fine" "bagunna",
    kv "i am sorry" "sorry ra",
    kv "excuse me" "excuse me",
    kv "please" "please" ]

/-- `apply_phrase_rules` of the source: lower-case the text, then apply each
phrase pattern in order (`re.sub(pat, rep, t, flags=re.IGNORECASE)`, each
`pat` being `\b<literal>\b`). -/
def apply_phrase_rules (text : Str) : Str :=
  PHRASES.foldl (fun t pr => subWordAll true pr.1 pr.2 t) (pyLower text)

/-- Python dict membership over the association-list model. -/
def pyDictMem (d : List (Str × Str)) (k : Str) : Bool := d.any (fun e => e.1 == k)

/-- Python `dict.get(k, dflt)` over the association-list model. -/
def pyDictGet (d : List (Str × Str)) (k : Str) (dflt : Str) : Str :=
  match d.find? (fun e => e.1 == k) with
  | some e => e.2
  | none => dflt

/-- Python `d[k] = v`: overwrite in place if the key exists, else append —
exactly the insertion-order behaviour of a Python dict. -/
def pyDictInsert (d : List (Str × Str)) (k v : Str) : List (Str × Str) :=
  if d.any (fun e => e.1 == k) then d.map (fun e => if e.1 == k then (k, v) else e)
  else d ++ [(k, v)]

/-- The `base` dict literal of `build_tenglish_dictionary`, in source order. -/
def base : List (Str × Str) :=
  [ kv "i" "nenu", kv "me" "nannu", kv "my" "naa", kv "mine" "naadi",
    kv "you" "nuvvu", kv "your" "nee", kv "yours" "needi",
    kv "he" "vaadu", kv "him" "vaadini", kv "his" "vaadi",
    kv "she" "aame", kv "her" "aameni", kv "hers" "aame di",
    kv "we" "manam", kv "us" "manalni", kv "our" "maa",
    kv "they" "vaallu", kv "them" "vaallani", kv "their" "vaalla",
    kv "am" "unna", kv "is" "undi", kv "are" "unnaru", kv "was" "unde", kv "were" "unnaru",
    kv "be" "undu",
    kv "and" "inka", kv "but" "kani", kv "because" "endukante", kv "so" "andukani",
    kv "then" "appudu",
    kv "to" "ki", kv "in" "lo", kv "with" "tho", kv "on" "meeda", kv "at" "daggara",
    kv "from" "nundi", kv "for" "kosam", kv "about" "gurinchi", kv "before" "mundhu",
    kv "after" "tarvata",
    kv "go" "ellu", kv "come" "ra", kv "do" "chey", kv "eat" "tinu", kv "drink" "taagu",
    kv "sleep" "nidra", kv "work" "pani", kv "study" "chaduvu", kv "wait" "agu",
    kv "stop" "aapu", kv "start" "start", kv "see" "choodu", kv "watch" "choodu",
    kv "look" "choodu", kv "say" "cheppu", kv "tell" "cheppu", kv "give" "ivvu",
    kv "take" "teesko", kv "help" "help",
    kv "what" "em", kv "why" "enduku", kv "how" "ela", kv "where" "ekkada",
    kv "when" "eppudu", kv "who" "evaru", kv "which" "edi",
    kv "now" "ippudu", kv "today" "ivala", kv "tomorrow" "repu", kv "yesterday" "ninna",
    kv "later" "tarvata", kv "always" "eppudu", kv "never" "eppudu kaadu",
    kv "good" "bagundi", kv "bad" "baaledu", kv "fine" "bagundi", kv "very" "chala",
    kv "ok" "sare", kv "okay" "sare", kv "yes" "avunu", kv "no" "ledu",
    kv "bro" "bro", kv "dude" "bro", kv "friend" "friend", kv "thanks" "thanks",
    kv "sorry" "sorry", kv "please" "please", kv "hello" "hello", kv "hi" "hi",
    kv "bye" "bye", kv "late" "late", kv "fast" "fast", kv "slow" "slow" ]

/-- The `fixed_phrases` dict literal of the source, in order. -/
def fixed_phrases : List (Str × Str) :=
  [ kv "i am" "nenu unna",
    kv "i'm" "nenu",
    kv "you are" "nuvvu",
    kv "you're" "nuvvu",
    kv "what are you doing" "em chestunnav",
    kv "what are u doing" "em chestunnav",
    kv "how are you" "ela unnav" ]

/-- The `keep_nouns` list of `build_tenglish_dictionary`, in source order. -/
def keep_nouns : List Str :=
  [ "office", "meeting", "college", "class", "project", "assignment", "deadline",
    "phone", "mobile", "laptop", "wifi", "internet", "email", "app",
    "gym", "workout", "diet", "protein", "training", "practice",
    "youtube", "instagram", "whatsapp", "google",
    "bus", "train", "bike", "car",
    "home", "room", "food", "water", "money", "time",
    "gate", "iit", "eldermate", "raspberry", "pi" ].map String.data

/-- One row of the source's `verb_bank`. -/
structure VerbForms where
  v1 : Str
  ing : Str
  ed : Str
  will : Str

/-- Shorthand for one verb-bank row. -/
def vb (v v1 ing ed will : String) : Str × VerbForms :=
  (v.data, ⟨v1.data, ing.data, ed.data, will.data⟩)

/-- The `verb_bank` of the source, in order. -/
def verb_bank : List (Str × VerbForms) :=
  [ vb "go" "ellu" "veltunna" "vellaa" "velta",
    vb "come" "ra" "vastunna" "vachaa" "vasta",
    vb "do" "chey" "chestunna" "chesaa" "chestaa",
    vb "eat" "tinu" "tintunna" "tinna" "tintaa",
    vb "drink" "taagu" "taagutunna" "taaga" "taagtaa",
    vb "sleep" "nidra" "nidra potunna" "nidra poya" "nidra potaa",
    vb "study" "chaduvu" "chaduvutunna" "chadivaa" "chaduvutaa",
    vb "work" "pani" "panichestunna" "pani chesaa" "panichestaa",
    vb "wait" "agu" "agutunna" "agaa" "aguta",
    vb "stop" "aapu" "aapestunna" "aapesaa" "aapestaa",
    vb "see" "choodu" "chustunna" "chusaa" "chustaa",
    vb "watch" "choodu" "chustunna" "chusaa" "chustaa",
    vb "tell" "cheppu" "cheptunna" "cheppaa" "cheptaa",
    vb "say" "cheppu" "cheptunna" "cheppaa" "cheptaa",
    vb "give" "ivvu" "istunna" "ichaa" "istaa",
    vb "take" "teesko" "teesukuntunna" "teeskunna" "teeskuntaa",
    vb "help" "help" "help chestunna" "help chesaa" "help chestaa" ]

/-- The per-verb body of the builder's expansion loop, in source order. -/
def expandVerb (d : List (Str × Str)) (v : Str) (forms : VerbForms) : List (Str × Str) :=
  let d := pyDictInsert d v forms.v1
  let d := pyDictInsert d (v ++ "ing".data) forms.ing
  let d :=
    if "e".data.isSuffixOf v then pyDictInsert d (v.dropLast ++ "ing".data) forms.ing
    else pyDictInsert d (v ++ "ing".data) forms.ing
  let d := pyDictInsert d (v ++ "ed".data) forms.ed
  let d :=
    if v == "go".data then pyDictInsert d "went".data forms.ed
    else if v == "eat".data then pyDictInsert d "ate".data forms.ed
    else if v == "drink".data then pyDictInsert d "drank".data forms.ed
    else if v == "sleep".data then pyDictInsert d "slept".data forms.ed
    else if v == "take".data then pyDictInsert d "took".data forms.ed
    else if v == "come".data then pyDictInsert d "came".data forms.ed
    else if v == "do".data then pyDictInsert d "did".data forms.ed
    else d
  let d := pyDictInsert d ("will ".data ++ v) forms.will
  let d := pyDictInsert d ("can ".data ++ v) (forms.v1 ++ " galanu".data)
  let d := pyDictInsert d ("cannot ".data ++ v) (forms.v1 ++ " ledu".data)
  let d := pyDictInsert d ("can't ".data ++ v) (forms.v1 ++ " ledu".data)
  let d := pyDictInsert d ("want to ".data ++ v) (forms.v1 ++ " kavali".data)
  let d := pyDictInsert d ("need to ".data ++ v) (forms.v1 ++ " kavali".data)
  let d := pyDictInsert d ("have to ".data ++ v) (forms.v1 ++ " kavali".data)
  let d := pyDictInsert d ("must ".data ++ v) (forms.v1 ++ " tappadu".data)
  pyDictInsert d ("please ".data ++ v) ("please ".data ++ forms.v1)

/-- `build_tenglish_dictionary` of the source: base words, then fixed
phrases, then the keep-nouns mapped to themselves, then the programmatic
verb expansions. -/
def build_tenglish_dictionary : List (Str × Str) :=
  let final := base.foldl (fun d p => pyDictInsert d p.1 p.2) []
  let final := fixed_phrases.foldl (fun d p => pyDictInsert d p.1 p.2) final
  let final := keep_nouns.foldl (fun d n => pyDictInsert d n n) final
  verb_bank.foldl (fun d p => expandVerb d p.1 p.2) final

/-- The value of `build_tenglish_dictionary`, as a literal (validated once by
`build_tenglish_dictionary_eq`); used to keep later evaluations cheap. -/
def DICT : List (Str × Str) :=
  [ kv "i" "nenu",
    kv "me" "nannu",
    kv "my" "naa",
    kv "mine" "naadi",
    kv "you" "nuvvu",
    kv "your" "nee",
    kv "yours" "needi",
    kv "he" "vaadu",
    kv "him" "vaadini",
    kv "his" "vaadi",
    kv "she" "aame",
    kv "her" "aameni",
    kv "hers" "aame di",
    kv "we" "manam",
    kv "us" "manalni",
    kv "our" "maa",
    kv "they" "vaallu",
    kv "them" "vaallani",
    kv "their" "vaalla",
    kv "am" "unna",
    kv "is" "undi",
    kv "are" "unnaru",
    kv "was" "unde",
    kv "were" "unnaru",
    kv "be" "undu",
    kv "and" "inka",
    kv "but" "kani",
    kv "because" "endukante",
    kv "so" "andukani",
    kv "then" "appudu",
    kv "to" "ki",
    kv "in" "lo",
    kv "with" "tho",
    kv "on" "meeda",
    kv "at" "daggara",
    kv "from" "nundi",
    kv "for" "kosam",
    kv "about" "gurinchi",
    kv "before" "mundhu",
    kv "after" "tarvata",
    kv "go" "ellu",
    kv "come" "ra",
    kv "do" "chey",
    kv "eat" "tinu",
    kv "drink" "taagu",
    kv "sleep" "nidra",
    kv "work" "pani",
    kv "study" "chaduvu",
    kv "wait" "agu",
    kv "stop" "aapu",
    kv "start" "start",
    kv "see" "choodu",
    kv "watch" "choodu",
    kv "look" "choodu",
    kv "say" "cheppu",
    kv "tell" "cheppu",
    kv "give" "ivvu",
    kv "take" "teesko",
    kv "help" "help",
    kv "what" "em",
    kv "why" "enduku",
    kv "how" "ela",
    kv "where" "ekkada",
    kv "when" "eppudu",
    kv "who" "evaru",
    kv "which" "edi",
    kv "now" "ippudu",
    kv "today" "ivala",
    kv "tomorrow" "repu",
    kv "yesterday" "ninna",
    kv "later" "tarvata",
    kv "always" "eppudu",
    kv "never" "eppudu kaadu",
    kv "good" "bagundi",
    kv "bad" "baaledu",
    kv "fine" "bagundi",
    kv "very" "chala",
    kv "ok" "sare",
    kv "okay" "sare",
    kv "yes" "avunu",
    kv "no" "ledu",
    kv "bro" "bro",
    kv "dude" "bro",
    kv "friend" "friend",
    kv "thanks" "thanks",
    kv "sorry" "sorry",
    kv "please" "please",
    kv "hello" "hello",
    kv "hi" "hi",
    kv "bye" "bye",
    kv "late" "late",
    kv "fast" "fast",
    kv "slow" "slow",
    kv "i am" "nenu unna",
    kv "i'm" "nenu",
    kv "you are" "nuvvu",
    kv "you're" "nuvvu",
    kv "what are you doing" "em chestunnav",
    kv "what are u doing" "em chestunnav",
    kv "how are you" "ela unnav",
    kv "office" "office",
    kv "meeting" "meeting",
    kv "college" "college",
    kv "class" "class",
    kv "project" "project",
    kv "assignment" "assignment",
    kv "deadline" "deadline",
    kv "phone" "phone",
    kv "mobile" "mobile",
    kv "laptop" "laptop",
    kv "wifi" "wifi",
    kv "internet" "internet",
    kv "email" "email",
    kv "app" "app",
    kv "gym" "gym",
    kv "workout" "workout",
    kv "diet" "diet",
    kv "protein" "protein",
    kv "training" "training",
    kv "practice" "practice",
    kv "youtube" "youtube",
    kv "instagram" "instagram",
    kv "whatsapp" "whatsapp",
    kv "google" "google",
    kv "bus" "bus",
    kv "train" "train",
    kv "bike" "bike",
    kv "car" "car",
    kv "home" "home",
    kv "room" "room",
    kv "food" "food",
    kv "water" "water",
    kv "money" "money",
    kv "time" "time",
    kv "gate" "gate",
    kv "iit" "iit",
    kv "eldermate" "eldermate",
    kv "raspberry" "raspberry",
    kv "pi" "pi",
    kv "going" "veltunna",
    kv "goed" "vellaa",
    kv "went" "vellaa",
    kv "will go" "velta",
    kv "can go" "ellu galanu",
    kv "cannot go" "ellu ledu",
    kv "can't go" "ellu ledu",
    kv "want to go" "ellu kavali",
    kv "need to go" "ellu kavali",
    kv "have to go" "ellu kavali",
    kv "must go" "ellu tappadu",
    kv "please go" "please ellu",
    kv "comeing" "vastunna",
    kv "coming" "vastunna",
    kv "comeed" "vachaa",
    kv "came" "vachaa",
    kv "will come" "vasta",
    kv "can come" "ra galanu",
    kv "cannot come" "ra ledu",
    kv "can't come" "ra ledu",
    kv "want to come" "ra kavali",
    kv "need to come" "ra kavali",
    kv "have to come" "ra kavali",
    kv "must come" "ra tappadu",
    kv "please come" "please ra",
    kv "doing" "chestunna",
    kv "doed" "chesaa",
    kv "did" "chesaa",
    kv "will do" "chestaa",
    kv "can do" "chey galanu",
    kv "cannot do" "chey ledu",
    kv "can't do" "chey ledu",
    kv "want to do" "chey kavali",
    kv "need to do" "chey kavali",
    kv "have to do" "chey kavali",
    kv "must do" "chey tappadu",
    kv "please do" "please chey",
    kv "eating" "tintunna",
    kv "eated" "tinna",
    kv "ate" "tinna",
    kv "will eat" "tintaa",
    kv "can eat" "tinu galanu",
    kv "cannot eat" "tinu ledu",
    kv "can't eat" "tinu ledu",
    kv "want to eat" "tinu kavali",
    kv "need to eat" "tinu kavali",
    kv "have to eat" "tinu kavali",
    kv "must eat" "tinu tappadu",
    kv "please eat" "please tinu",
    kv "drinking" "taagutunna",
    kv "drinked" "taaga",
    kv "drank" "taaga",
    kv "will drink" "taagtaa",
    kv "can drink" "taagu galanu",
    kv "cannot drink" "taagu ledu",
    kv "can't drink" "taagu ledu",
    kv "want to drink" "taagu kavali",
    kv "need to drink" "taagu kavali",
    kv "have to drink" "taagu kavali",
    kv "must drink" "taagu tappadu",
    kv "please drink" "please taagu",
    kv "sleeping" "nidra potunna",
    kv "sleeped" "nidra poya",
    kv "slept" "nidra poya",
    kv "will sleep" "nidra potaa",
    kv "can sleep" "nidra galanu",
    kv "cannot sleep" "nidra ledu",
    kv "can't sleep" "nidra ledu",
    kv "want to sleep" "nidra kavali",
    kv "need to sleep" "nidra kavali",
    kv "have to sleep" "nidra kavali",
    kv "must sleep" "nidra tappadu",
    kv "please sleep" "please nidra",
    kv "studying" "chaduvutunna",
    kv "studyed" "chadivaa",
    kv "will study" "chaduvutaa",
    kv "can study" "chaduvu galanu",
    kv "cannot study" "chaduvu ledu",
    kv "can't study" "chaduvu ledu",
    kv "want to study" "chaduvu kavali",
    kv "need to study" "chaduvu kavali",
    kv "have to study" "chaduvu kavali",
    kv "must study" "chaduvu tappadu",
    kv "please study" "please chaduvu",
    kv "working" "panichestunna",
    kv "worked" "pani chesaa",
    kv "will work" "panichestaa",
    kv "can work" "pani galanu",
    kv "cannot work" "pani ledu",
    kv "can't work" "pani ledu",
    kv "want to work" "pani kavali",
    kv "need to work" "pani kavali",
    kv "have to work" "pani kavali",
    kv "must work" "pani tappadu",
    kv "please work" "please pani",
    kv "waiting" "agutunna",
    kv "waited" "agaa",
    kv "will wait" "aguta",
    kv "can wait" "agu galanu",
    kv "cannot wait" "agu ledu",
    kv "can't wait" "agu ledu",
    kv "want to wait" "agu kavali",
    kv "need to wait" "agu kavali",
    kv "have to wait" "agu kavali",
    kv "must wait" "agu tappadu",
    kv "please wait" "please agu",
    kv "stoping" "aapestunna",
    kv "stoped" "aapesaa",
    kv "will stop" "aapestaa",
    kv "can stop" "aapu galanu",
    kv "cannot stop" "aapu ledu",
    kv "can't stop" "aapu ledu",
    kv "want to stop" "aapu kavali",
    kv "need to stop" "aapu kavali",
    kv "have to stop" "aapu kavali",
    kv "must stop" "aapu tappadu",
    kv "please stop" "please aapu",
    kv "seeing" "chustunna",
    kv "seing" "chustunna",
    kv "seeed" "chusaa",
    kv "will see" "chustaa",
    kv "can see" "choodu galanu",
    kv "cannot see" "choodu ledu",
    kv "can't see" "choodu ledu",
    kv "want to see" "choodu kavali",
    kv "need to see" "choodu kavali",
    kv "have to see" "choodu kavali",
    kv "must see" "choodu tappadu",
    kv "please see" "please choodu",
    kv "watching" "chustunna",
    kv "watched" "chusaa",
    kv "will watch" "chustaa",
    kv "can watch" "choodu galanu",
    kv "cannot watch" "choodu ledu",
    kv "can't watch" "choodu ledu",
    kv "want to watch" "choodu kavali",
    kv "need to watch" "choodu kavali",
    kv "have to watch" "choodu kavali",
    kv "must watch" "choodu tappadu",
    kv "please watch" "please choodu",
    kv "telling" "cheptunna",
    kv "telled" "cheppaa",
    kv "will tell" "cheptaa",
    kv "can tell" "cheppu galanu",
    kv "cannot tell" "cheppu ledu",
    kv "can't tell" "cheppu ledu",
    kv "want to tell" "cheppu kavali",
    kv "need to tell" "cheppu kavali",
    kv "have to tell" "cheppu kavali",
    kv "must tell" "cheppu tappadu",
    kv "please tell" "please cheppu",
    kv "saying" "cheptunna",
    kv "sayed" "cheppaa",
    kv "will say" "cheptaa",
    kv "can say" "cheppu galanu",
    kv "cannot say" "cheppu ledu",
    kv "can't say" "cheppu ledu",
    kv "want to say" "cheppu kavali",
    kv "need to say" "cheppu kavali",
    kv "have to say" "cheppu kavali",
    kv "must say" "cheppu tappadu",
    kv "please say" "please cheppu",
    kv "giveing" "istunna",
    kv "giving" "istunna",
    kv "giveed" "ichaa",
    kv "will give" "istaa",
    kv "can give" "ivvu galanu",
    kv "cannot give" "ivvu ledu",
    kv "can't give" "ivvu ledu",
    kv "want to give" "ivvu kavali",
    kv "need to give" "ivvu kavali",
    kv "have to give" "ivvu kavali",
    kv "must give" "ivvu tappadu",
    kv "please give" "please ivvu",
    kv "takeing" "teesukuntunna",
    kv "taking" "teesukuntunna",
    kv "takeed" "teeskunna",
    kv "took" "teeskunna",
    kv "will take" "teeskuntaa",
    kv "can take" "teesko galanu",
    kv "cannot take" "teesko ledu",
    kv "can't take" "teesko ledu",
    kv "want to take" "teesko kavali",
    kv "need to take" "teesko kavali",
    kv "have to take" "teesko kavali",
    kv "must take" "teesko tappadu",
    kv "please take" "please teesko",
    kv "helping" "help chestunna",
    kv "helped" "help chesaa",
    kv "will help" "help chestaa",
    kv "can help" "help galanu",
    kv "cannot help" "help ledu",
    kv "can't help" "help ledu",
    kv "want to help" "help kavali",
    kv "need to help" "help kavali",
    kv "have to help" "help kavali",
    kv "must help" "help tappadu",
    kv "please help" "please help" ]

/-- The dictionary after the base-word inserts (validated by `stage1_eq`). -/
def DICT_STAGE1 : List (Str × Str) :=
  [ kv "i" "nenu",
    kv "me" "nannu",
    kv "my" "naa",
    kv "mine" "naadi",
    kv "you" "nuvvu",
    kv "your" "nee",
    kv "yours" "needi",
    kv "he" "vaadu",
    kv "him" "vaadini",
    kv "his" "vaadi",
    kv "she" "aame",
    kv "her" "aameni",
    kv "hers" "aame di",
    kv "we" "manam",
    kv "us" "manalni",
    kv "our" "maa",
    kv "they" "vaallu",
    kv "them" "vaallani",
    kv "their" "vaalla",
    kv "am" "unna",
    kv "is" "undi",
    kv "are" "unnaru",
    kv "was" "unde",
    kv "were" "unnaru",
    kv "be" "undu",
    kv "and" "inka",
    kv "but" "kani",
    kv "because" "endukante",
    kv "so" "andukani",
    kv "then" "appudu",
    kv "to" "ki",
    kv "in" "lo",
    kv "with" "tho",
    kv "on" "meeda",
    kv "at" "daggara",
    kv "from" "nundi",
    kv "for" "kosam",
    kv "about" "gurinchi",
    kv "before" "mundhu",
    kv "after" "tarvata",
    kv "go" "ellu",
    kv "come" "ra",
    kv "do" "chey",
    kv "eat" "tinu",
    kv "drink" "taagu",
    kv "sleep" "nidra",
    kv "work" "pani",
    kv "study" "chaduvu",
    kv "wait" "agu",
    kv "stop" "aapu",
    kv "start" "start",
    kv "see" "choodu",
    kv "watch" "choodu",
    kv "look" "choodu",
    kv "say" "cheppu",
    kv "tell" "cheppu",
    kv "give" "ivvu",
    kv "take" "teesko",
    kv "help" "help",
    kv "what" "em",
    kv "why" "enduku",
    kv "how" "ela",
    kv "where" "ekkada",
    kv "when" "eppudu",
    kv "who" "evaru",
    kv "which" "edi",
    kv "now" "ippudu",
    kv "today" "ivala",
    kv "tomorrow" "repu",
    kv "yesterday" "ninna",
    kv "later" "tarvata",
    kv "always" "eppudu",
    kv "never" "eppudu kaadu",
    kv "good" "bagundi",
    kv "bad" "baaledu",
    kv "fine" "bagundi",
    kv "very" "chala",
    kv "ok" "sare",
    kv "okay" "sare",
    kv "yes" "avunu",
    kv "no" "ledu",
    kv "bro" "bro",
    kv "dude" "bro",
    kv "friend" "friend",
    kv "thanks" "thanks",
    kv "sorry" "sorry",
    kv "please" "please",
    kv "hello" "hello",
    kv "hi" "hi",
    kv "bye" "bye",
    kv "late" "late",
    kv "fast" "fast",
    kv "slow" "slow" ]

/-- The dictionary after the fixed-phrase inserts (validated by `stage2_eq`). -/
def DICT_STAGE2 : List (Str × Str) :=
  [ kv "i" "nenu",
    kv "me" "nannu",
    kv "my" "naa",
    kv "mine" "naadi",
    kv "you" "nuvvu",
    kv "your" "nee",
    kv "yours" "needi",
    kv "he" "vaadu",
    kv "him" "vaadini",
    kv "his" "vaadi",
    kv "she" "aame",
    kv "her" "aameni",
    kv "hers" "aame di",
    kv "we" "manam",
    kv "us" "manalni",
    kv "our" "maa",
    kv "they" "vaallu",
    kv "them" "vaallani",
    kv "their" "vaalla",
    kv "am" "unna",
    kv "is" "undi",
    kv "are" "unnaru",
    kv "was" "unde",
    kv "were" "unnaru",
    kv "be" "undu",
    kv "and" "inka",
    kv "but" "kani",
    kv "because" "endukante",
    kv "so" "andukani",
    kv "then" "appudu",
    kv "to" "ki",
    kv "in" "lo",
    kv "with" "tho",
    kv "on" "meeda",
    kv "at" "daggara",
    kv "from" "nundi",
    kv "for" "kosam",
    kv "about" "gurinchi",
    kv "before" "mundhu",
    kv "after" "tarvata",
    kv "go" "ellu",
    kv "come" "ra",
    kv "do" "chey",
    kv "eat" "tinu",
    kv "drink" "taagu",
    kv "sleep" "nidra",
    kv "work" "pani",
    kv "study" "chaduvu",
    kv "wait" "agu",
    kv "stop" "aapu",
    kv "start" "start",
    kv "see" "choodu",
    kv "watch" "choodu",
    kv "look" "choodu",
    kv "say" "cheppu",
    kv "tell" "cheppu",
    kv "give" "ivvu",
    kv "take" "teesko",
    kv "help" "help",
    kv "what" "em",
    kv "why" "enduku",
    kv "how" "ela",
    kv "where" "ekkada",
    kv "when" "eppudu",
    kv "who" "evaru",
    kv "which" "edi",
    kv "now" "ippudu",
    kv "today" "ivala",
    kv "tomorrow" "repu",
    kv "yesterday" "ninna",
    kv "later" "tarvata",
    kv "always" "eppudu",
    kv "never" "eppudu kaadu",
    kv "good" "bagundi",
    kv "bad" "baaledu",
    kv "fine" "bagundi",
    kv "very" "chala",
    kv "ok" "sare",
    kv "okay" "sare",
    kv "yes" "avunu",
    kv "no" "ledu",
    kv "bro" "bro",
    kv "dude" "bro",
    kv "friend" "friend",
    kv "thanks" "thanks",
    kv "sorry" "sorry",
    kv "please" "please",
    kv "hello" "hello",
    kv "hi" "hi",
    kv "bye" "bye",
    kv "late" "late",
    kv "fast" "fast",
    kv "slow" "slow",
    kv "i am" "nenu unna",
    kv "i'm" "nenu",
    kv "you are" "nuvvu",
    kv "you're" "nuvvu",
    kv "what are you doing" "em chestunnav",
    kv "what are u doing" "em chestunnav",
    kv "how are you" "ela unnav" ]

/-- The dictionary after the keep-noun inserts (validated by `stage3_eq`). -/
def DICT_STAGE3 : List (Str × Str) :=
  [ kv "i" "nenu",
    kv "me" "nannu",
    kv "my" "naa",
    kv "mine" "naadi",
    kv "you" "nuvvu",
    kv "your" "nee",
    kv "yours" "needi",
    kv "he" "vaadu",
    kv "him" "vaadini",
    kv "his" "vaadi",
    kv "she" "aame",
    kv "her" "aameni",
    kv "hers" "aame di",
    kv "we" "manam",
    kv "us" "manalni",
    kv "our" "maa",
    kv "they" "vaallu",
    kv "them" "vaallani",
    kv "their" "vaalla",
    kv "am" "unna",
    kv "is" "undi",
    kv "are" "unnaru",
    kv "was" "unde",
    kv "were" "unnaru",
    kv "be" "undu",
    kv "and" "inka",
    kv "but" "kani",
    kv "because" "endukante",
    kv "so" "andukani",
    kv "then" "appudu",
    kv "to" "ki",
    kv "in" "lo",
    kv "with" "tho",
    kv "on" "meeda",
    kv "at" "daggara",
    kv "from" "nundi",
    kv "for" "kosam",
    kv "about" "gurinchi",
    kv "before" "mundhu",
    kv "after" "tarvata",
    kv "go" "ellu",
    kv "come" "ra",
    kv "do" "chey",
    kv "eat" "tinu",
    kv "drink" "taagu",
    kv "sleep" "nidra",
    kv "work" "pani",
    kv "study" "chaduvu",
    kv "wait" "agu",
    kv "stop" "aapu",
    kv "start" "start",
    kv "see" "choodu",
    kv "watch" "choodu",
    kv "look" "choodu",
    kv "say" "cheppu",
    kv "tell" "cheppu",
    kv "give" "ivvu",
    kv "take" "teesko",
    kv "help" "help",
    kv "what" "em",
    kv "why" "enduku",
    kv "how" "ela",
    kv "where" "ekkada",
    kv "when" "eppudu",
    kv "who" "evaru",
    kv "which" "edi",
    kv "now" "ippudu",
    kv "today" "ivala",
    kv "tomorrow" "repu",
    kv "yesterday" "ninna",
    kv "later" "tarvata",
    kv "always" "eppudu",
    kv "never" "eppudu kaadu",
    kv "good" "bagundi",
    kv "bad" "baaledu",
    kv "fine" "bagundi",
    kv "very" "chala",
    kv "ok" "sare",
    kv "okay" "sare",
    kv "yes" "avunu",
    kv "no" "ledu",
    kv "bro" "bro",
    kv "dude" "bro",
    kv "friend" "friend",
    kv "thanks" "thanks",
    kv "sorry" "sorry",
    kv "please" "please",
    kv "hello" "hello",
    kv "hi" "hi",
    kv "bye" "bye",
    kv "late" "late",
    kv "fast" "fast",
    kv "slow" "slow",
    kv "i am" "nenu unna",
    kv "i'm" "nenu",
    kv "you are" "nuvvu",
    kv "you're" "nuvvu",
    kv "what are you doing" "em chestunnav",
    kv "what are u doing" "em chestunnav",
    kv "how are you" "ela unnav",
    kv "office" "office",
    kv "meeting" "meeting",
    kv "college" "college",
    kv "class" "class",
    kv "project" "project",
    kv "assignment" "assignment",
    kv "deadline" "deadline",
    kv "phone" "phone",
    kv "mobile" "mobile",
    kv "laptop" "laptop",
    kv "wifi" "wifi",
    kv "internet" "internet",
    kv "email" "email",
    kv "app" "app",
    kv "gym" "gym",
    kv "workout" "workout",
    kv "diet" "diet",
    kv "protein" "protein",
    kv "training" "training",
    kv "practice" "practice",
    kv "youtube" "youtube",
    kv "instagram" "instagram",
    kv "whatsapp" "whatsapp",
    kv "google" "google",
    kv "bus" "bus",
    kv "train" "train",
    kv "bike" "bike",
    kv "car" "car",
    kv "home" "home",
    kv "room" "room",
    kv "food" "food",
    kv "water" "water",
    kv "money" "money",
    kv "time" "time",
    kv "gate" "gate",
    kv "iit" "iit",
    kv "eldermate" "eldermate",
    kv "raspberry" "raspberry",
    kv "pi" "pi" ]

set_option maxRecDepth 100000 in
set_option maxHeartbeats 4000000 in
/-- Value of the builder's base-word fold. -/
theorem stage1_eq : base.foldl (fun d p => pyDictInsert d p.1 p.2) [] = DICT_STAGE1 := by decide

set_option maxRecDepth 100000 in
set_option maxHeartbeats 4000000 in
/-- Value of the builder's fixed-phrase fold. -/
theorem stage2_eq :
    fixed_phrases.foldl (fun d p => pyDictInsert d p.1 p.2) DICT_STAGE1 = DICT_STAGE2 := by decide

set_option maxRecDepth 100000 in
set_option maxHeartbeats 4000000 in
/-- Value of the builder's keep-noun fold. -/
theorem stage3_eq :
    keep_nouns.foldl (fun d n => pyDictInsert d n n) DICT_STAGE2 = DICT_STAGE3 := by decide

/-- The dictionary after the first five verb expansions (validated by
`vchunk1_eq`). -/
def DICT_V5 : List (Str × Str) :=
  [ kv "i" "nenu",
    kv "me" "nannu",
    kv "my" "naa",
    kv "mine" "naadi",
    kv "you" "nuvvu",
    kv "your" "nee",
    kv "yours" "needi",
    kv "he" "vaadu",
    kv "him" "vaadini",
    kv "his" "vaadi",
    kv "she" "aame",
    kv "her" "aameni",
    kv "hers" "aame di",
    kv "we" "manam",
    kv "us" "manalni",
    kv "our" "maa",
    kv "they" "vaallu",
    kv "them" "vaallani",
    kv "their" "vaalla",
    kv "am" "unna",
    kv "is" "undi",
    kv "are" "unnaru",
    kv "was" "unde",
    kv "were" "unnaru",
    kv "be" "undu",
    kv "and" "inka",
    kv "but" "kani",
    kv "because" "endukante",
    kv "so" "andukani",
    kv "then" "appudu",
    kv "to" "ki",
    kv "in" "lo",
    kv "with" "tho",
    kv "on" "meeda",
    kv "at" "daggara",
    kv "from" "nundi",
    kv "for" "kosam",
    kv "about" "gurinchi",
    kv "before" "mundhu",
    kv "after" "tarvata",
    kv "go" "ellu",
    kv "come" "ra",
    kv "do" "chey",
    kv "eat" "tinu",
    kv "drink" "taagu",
    kv "sleep" "nidra",
    kv "work" "pani",
    kv "study" "chaduvu",
    kv "wait" "agu",
    kv "stop" "aapu",
    kv "start" "start",
    kv "see" "choodu",
    kv "watch" "choodu",
    kv "look" "choodu",
    kv "say" "cheppu",
    kv "tell" "cheppu",
    kv "give" "ivvu",
    kv "take" "teesko",
    kv "help" "help",
    kv "what" "em",
    kv "why" "enduku",
    kv "how" "ela",
    kv "where" "ekkada",
    kv "when" "eppudu",
    kv "who" "evaru",
    kv "which" "edi",
    kv "now" "ippudu",
    kv "today" "ivala",
    kv "tomorrow" "repu",
    kv "yesterday" "ninna",
    kv "later" "tarvata",
    kv "always" "eppudu",
    kv "never" "eppudu kaadu",
    kv "good" "bagundi",
    kv "bad" "baaledu",
    kv "fine" "bagundi",
    kv "very" "chala",
    kv "ok" "sare",
    kv "okay" "sare",
    kv "yes" "avunu",
    kv "no" "ledu",
    kv "bro" "bro",
    kv "dude" "bro",
    kv "friend" "friend",
    kv "thanks" "thanks",
    kv "sorry" "sorry",
    kv "please" "please",
    kv "hello" "hello",
    kv "hi" "hi",
    kv "bye" "bye",
    kv "late" "late",
    kv "fast" "fast",
    kv "slow" "slow",
    kv "i am" "nenu unna",
    kv "i'm" "nenu",
    kv "you are" "nuvvu",
    kv "you're" "nuvvu",
    kv "what are you doing" "em chestunnav",
    kv "what are u doing" "em chestunnav",
    kv "how are you" "ela unnav",
    kv "office" "office",
    kv "meeting" "meeting",
    kv "college" "college",
    kv "class" "class",
    kv "project" "project",
    kv "assignment" "assignment",
    kv "deadline" "deadline",
    kv "phone" "phone",
    kv "mobile" "mobile",
    kv "laptop" "laptop",
    kv "wifi" "wifi",
    kv "internet" "internet",
    kv "email" "email",
    kv "app" "app",
    kv "gym" "gym",
    kv "workout" "workout",
    kv "diet" "diet",
    kv "protein" "protein",
    kv "training" "training",
    kv "practice" "practice",
    kv "youtube" "youtube",
    kv "instagram" "instagram",
    kv "whatsapp" "whatsapp",
    kv "google" "google",
    kv "bus" "bus",
    kv "train" "train",
    kv "bike" "bike",
    kv "car" "car",
    kv "home" "home",
    kv "room" "room",
    kv "food" "food",
    kv "water" "water",
    kv "money" "money",
    kv "time" "time",
    kv "gate" "gate",
    kv "iit" "iit",
    kv "eldermate" "eldermate",
    kv "raspberry" "raspberry",
    kv "pi" "pi",
    kv "going" "veltunna",
    kv "goed" "vellaa",
    kv "went" "vellaa",
    kv "will go" "velta",
    kv "can go" "ellu galanu",
    kv "cannot go" "ellu ledu",
    kv "can't go" "ellu ledu",
    kv "want to go" "ellu kavali",
    kv "need to go" "ellu kavali",
    kv "have to go" "ellu kavali",
    kv "must go" "ellu tappadu",
    kv "please go" "please ellu",
    kv "comeing" "vastunna",
    kv "coming" "vastunna",
    kv "comeed" "vachaa",
    kv "came" "vachaa",
    kv "will come" "vasta",
    kv "can come" "ra galanu",
    kv "cannot come" "ra ledu",
    kv "can't come" "ra ledu",
    kv "want to come" "ra kavali",
    kv "need to come" "ra kavali",
    kv "have to come" "ra kavali",
    kv "must come" "ra tappadu",
    kv "please come" "please ra",
    kv "doing" "chestunna",
    kv "doed" "chesaa",
    kv "did" "chesaa",
    kv "will do" "chestaa",
    kv "can do" "chey galanu",
    kv "cannot do" "chey ledu",
    kv "can't do" "chey ledu",
    kv "want to do" "chey kavali",
    kv "need to do" "chey kavali",
    kv "have to do" "chey kavali",
    kv "must do" "chey tappadu",
    kv "please do" "please chey",
    kv "eating" "tintunna",
    kv "eated" "tinna",
    kv "ate" "tinna",
    kv "will eat" "tintaa",
    kv "can eat" "tinu galanu",
    kv "cannot eat" "tinu ledu",
    kv "can't eat" "tinu ledu",
    kv "want to eat" "tinu kavali",
    kv "need to eat" "tinu kavali",
    kv "have to eat" "tinu kavali",
    kv "must eat" "tinu tappadu",
    kv "please eat" "please tinu",
    kv "drinking" "taagutunna",
    kv "drinked" "taaga",
    kv "drank" "taaga",
    kv "will drink" "taagtaa",
    kv "can drink" "taagu galanu",
    kv "cannot drink" "taagu ledu",
    kv "can't drink" "taagu ledu",
    kv "want to drink" "taagu kavali",
    kv "need to drink" "taagu kavali",
    kv "have to drink" "taagu kavali",
    kv "must drink" "taagu tappadu",
    kv "please drink" "please taagu" ]

/-- The dictionary after the first nine verb expansions (validated by
`vchunk2_eq`). -/
def DICT_V9 : List (Str × Str) :=
  [ kv "i" "nenu",
    kv "me" "nannu",
    kv "my" "naa",
    kv "mine" "naadi",
    kv "you" "nuvvu",
    kv "your" "nee",
    kv "yours" "needi",
    kv "he" "vaadu",
    kv "him" "vaadini",
    kv "his" "vaadi",
    kv "she" "aame",
    kv "her" "aameni",
    kv "hers" "aame di",
    kv "we" "manam",
    kv "us" "manalni",
    kv "our" "maa",
    kv "they" "vaallu",
    kv "them" "vaallani",
    kv "their" "vaalla",
    kv "am" "unna",
    kv "is" "undi",
    kv "are" "unnaru",
    kv "was" "unde",
    kv "were" "unnaru",
    kv "be" "undu",
    kv "and" "inka",
    kv "but" "kani",
    kv "because" "endukante",
    kv "so" "andukani",
    kv "then" "appudu",
    kv "to" "ki",
    kv "in" "lo",
    kv "with" "tho",
    kv "on" "meeda",
    kv "at" "daggara",
    kv "from" "nundi",
    kv "for" "kosam",
    kv "about" "gurinchi",
    kv "before" "mundhu",
    kv "after" "tarvata",
    kv "go" "ellu",
    kv "come" "ra",
    kv "do" "chey",
    kv "eat" "tinu",
    kv "drink" "taagu",
    kv "sleep" "nidra",
    kv "work" "pani",
    kv "study" "chaduvu",
    kv "wait" "agu",
    kv "stop" "aapu",
    kv "start" "start",
    kv "see" "choodu",
    kv "watch" "choodu",
    kv "look" "choodu",
    kv "say" "cheppu",
    kv "tell" "cheppu",
    kv "give" "ivvu",
    kv "take" "teesko",
    kv "help" "help",
    kv "what" "em",
    kv "why" "enduku",
    kv "how" "ela",
    kv "where" "ekkada",
    kv "when" "eppudu",
    kv "who" "evaru",
    kv "which" "edi",
    kv "now" "ippudu",
    kv "today" "ivala",
    kv "tomorrow" "repu",
    kv "yesterday" "ninna",
    kv "later" "tarvata",
    kv "always" "eppudu",
    kv "never" "eppudu kaadu",
    kv "good" "bagundi",
    kv "bad" "baaledu",
    kv "fine" "bagundi",
    kv "very" "chala",
    kv "ok" "sare",
    kv "okay" "sare",
    kv "yes" "avunu",
    kv "no" "ledu",
    kv "bro" "bro",
    kv "dude" "bro",
    kv "friend" "friend",
    kv "thanks" "thanks",
    kv "sorry" "sorry",
    kv "please" "please",
    kv "hello" "hello",
    kv "hi" "hi",
    kv "bye" "bye",
    kv "late" "late",
    kv "fast" "fast",
    kv "slow" "slow",
    kv "i am" "nenu unna",
    kv "i'm" "nenu",
    kv "you are" "nuvvu",
    kv "you're" "nuvvu",
    kv "what are you doing" "em chestunnav",
    kv "what are u doing" "em chestunnav",
    kv "how are you" "ela unnav",
    kv "office" "office",
    kv "meeting" "meeting",
    kv "college" "college",
    kv "class" "class",
    kv "project" "project",
    kv "assignment" "assignment",
    kv "deadline" "deadline",
    kv "phone" "phone",
    kv "mobile" "mobile",
    kv "laptop" "laptop",
    kv "wifi" "wifi",
    kv "internet" "internet",
    kv "email" "email",
    kv "app" "app",
    kv "gym" "gym",
    kv "workout" "workout",
    kv "diet" "diet",
    kv "protein" "protein",
    kv "training" "training",
    kv "practice" "practice",
    kv "youtube" "youtube",
    kv "instagram" "instagram",
    kv "whatsapp" "whatsapp",
    kv "google" "google",
    kv "bus" "bus",
    kv "train" "train",
    kv "bike" "bike",
    kv "car" "car",
    kv "home" "home",
    kv "room" "room",
    kv "food" "food",
    kv "water" "water",
    kv "money" "money",
    kv "time" "time",
    kv "gate" "gate",
    kv "iit" "iit",
    kv "eldermate" "eldermate",
    kv "raspberry" "raspberry",
    kv "pi" "pi",
    kv "going" "veltunna",
    kv "goed" "vellaa",
    kv "went" "vellaa",
    kv "will go" "velta",
    kv "can go" "ellu galanu",
    kv "cannot go" "ellu ledu",
    kv "can't go" "ellu ledu",
    kv "want to go" "ellu kavali",
    kv "need to go" "ellu kavali",
    kv "have to go" "ellu kavali",
    kv "must go" "ellu tappadu",
    kv "please go" "please ellu",
    kv "comeing" "vastunna",
    kv "coming" "vastunna",
    kv "comeed" "vachaa",
    kv "came" "vachaa",
    kv "will come" "vasta",
    kv "can come" "ra galanu",
    kv "cannot come" "ra ledu",
    kv "can't come" "ra ledu",
    kv "want to come" "ra kavali",
    kv "need to come" "ra kavali",
    kv "have to come" "ra kavali",
    kv "must come" "ra tappadu",
    kv "please come" "please ra",
    kv "doing" "chestunna",
    kv "doed" "chesaa",
    kv "did" "chesaa",
    kv "will do" "chestaa",
    kv "can do" "chey galanu",
    kv "cannot do" "chey ledu",
    kv "can't do" "chey ledu",
    kv "want to do" "chey kavali",
    kv "need to do" "chey kavali",
    kv "have to do" "chey kavali",
    kv "must do" "chey tappadu",
    kv "please do" "please chey",
    kv "eating" "tintunna",
    kv "eated" "tinna",
    kv "ate" "tinna",
    kv "will eat" "tintaa",
    kv "can eat" "tinu galanu",
    kv "cannot eat" "tinu ledu",
    kv "can't eat" "tinu ledu",
    kv "want to eat" "tinu kavali",
    kv "need to eat" "tinu kavali",
    kv "have to eat" "tinu kavali",
    kv "must eat" "tinu tappadu",
    kv "please eat" "please tinu",
    kv "drinking" "taagutunna",
    kv "drinked" "taaga",
    kv "drank" "taaga",
    kv "will drink" "taagtaa",
    kv "can drink" "taagu galanu",
    kv "cannot drink" "taagu ledu",
    kv "can't drink" "taagu ledu",
    kv "want to drink" "taagu kavali",
    kv "need to drink" "taagu kavali",
    kv "have to drink" "taagu kavali",
    kv "must drink" "taagu tappadu",
    kv "please drink" "please taagu",
    kv "sleeping" "nidra potunna",
    kv "sleeped" "nidra poya",
    kv "slept" "nidra poya",
    kv "will sleep" "nidra potaa",
    kv "can sleep" "nidra galanu",
    kv "cannot sleep" "nidra ledu",
    kv "can't sleep" "nidra ledu",
    kv "want to sleep" "nidra kavali",
    kv "need to sleep" "nidra kavali",
    kv "have to sleep" "nidra kavali",
    kv "must sleep" "nidra tappadu",
    kv "please sleep" "please nidra",
    kv "studying" "chaduvutunna",
    kv "studyed" "chadivaa",
    kv "will study" "chaduvutaa",
    kv "can study" "chaduvu galanu",
    kv "cannot study" "chaduvu ledu",
    kv "can't study" "chaduvu ledu",
    kv "want to study" "chaduvu kavali",
    kv "need to study" "chaduvu kavali",
    kv "have to study" "chaduvu kavali",
    kv "must study" "chaduvu tappadu",
    kv "please study" "please chaduvu",
    kv "working" "panichestunna",
    kv "worked" "pani chesaa",
    kv "will work" "panichestaa",
    kv "can work" "pani galanu",
    kv "cannot work" "pani ledu",
    kv "can't work" "pani ledu",
    kv "want to work" "pani kavali",
    kv "need to work" "pani kavali",
    kv "have to work" "pani kavali",
    kv "must work" "pani tappadu",
    kv "please work" "please pani",
    kv "waiting" "agutunna",
    kv "waited" "agaa",
    kv "will wait" "aguta",
    kv "can wait" "agu galanu",
    kv "cannot wait" "agu ledu",
    kv "can't wait" "agu ledu",
    kv "want to wait" "agu kavali",
    kv "need to wait" "agu kavali",
    kv "have to wait" "agu kavali",
    kv "must wait" "agu tappadu",
    kv "please wait" "please agu" ]

/-- The dictionary after the first thirteen verb expansions (validated by
`vchunk3_eq`). -/
def DICT_V13 : List (Str × Str) :=
  [ kv "i" "nenu",
    kv "me" "nannu",
    kv "my" "naa",
    kv "mine" "naadi",
    kv "you" "nuvvu",
    kv "your" "nee",
    kv "yours" "needi",
    kv "he" "vaadu",
    kv "him" "vaadini",
    kv "his" "vaadi",
    kv "she" "aame",
    kv "her" "aameni",
    kv "hers" "aame di",
    kv "we" "manam",
    kv "us" "manalni",
    kv "our" "maa",
    kv "they" "vaallu",
    kv "them" "vaallani",
    kv "their" "vaalla",
    kv "am" "unna",
    kv "is" "undi",
    kv "are" "unnaru",
    kv "was" "unde",
    kv "were" "unnaru",
    kv "be" "undu",
    kv "and" "inka",
    kv "but" "kani",
    kv "because" "endukante",
    kv "so" "andukani",
    kv "then" "appudu",
    kv "to" "ki",
    kv "in" "lo",
    kv "with" "tho",
    kv "on" "meeda",
    kv "at" "daggara",
    kv "from" "nundi",
    kv "for" "kosam",
    kv "about" "gurinchi",
    kv "before" "mundhu",
    kv "after" "tarvata",
    kv "go" "ellu",
    kv "come" "ra",
    kv "do" "chey",
    kv "eat" "tinu",
    kv "drink" "taagu",
    kv "sleep" "nidra",
    kv "work" "pani",
    kv "study" "chaduvu",
    kv "wait" "agu",
    kv "stop" "aapu",
    kv "start" "start",
    kv "see" "choodu",
    kv "watch" "choodu",
    kv "look" "choodu",
    kv "say" "cheppu",
    kv "tell" "cheppu",
    kv "give" "ivvu",
    kv "take" "teesko",
    kv "help" "help",
    kv "what" "em",
    kv "why" "enduku",
    kv "how" "ela",
    kv "where" "ekkada",
    kv "when" "eppudu",
    kv "who" "evaru",
    kv "which" "edi",
    kv "now" "ippudu",
    kv "today" "ivala",
    kv "tomorrow" "repu",
    kv "yesterday" "ninna",
    kv "later" "tarvata",
    kv "always" "eppudu",
    kv "never" "eppudu kaadu",
    kv "good" "bagundi",
    kv "bad" "baaledu",
    kv "fine" "bagundi",
    kv "very" "chala",
    kv "ok" "sare",
    kv "okay" "sare",
    kv "yes" "avunu",
    kv "no" "ledu",
    kv "bro" "bro",
    kv "dude" "bro",
    kv "friend" "friend",
    kv "thanks" "thanks",
    kv "sorry" "sorry",
    kv "please" "please",
    kv "hello" "hello",
    kv "hi" "hi",
    kv "bye" "bye",
    kv "late" "late",
    kv "fast" "fast",
    kv "slow" "slow",
    kv "i am" "nenu unna",
    kv "i'm" "nenu",
    kv "you are" "nuvvu",
    kv "you're" "nuvvu",
    kv "what are you doing" "em chestunnav",
    kv "what are u doing" "em chestunnav",
    kv "how are you" "ela unnav",
    kv "office" "office",
    kv "meeting" "meeting",
    kv "college" "college",
    kv "class" "class",
    kv "project" "project",
    kv "assignment" "assignment",
    kv "deadline" "deadline",
    kv "phone" "phone",
    kv "mobile" "mobile",
    kv "laptop" "laptop",
    kv "wifi" "wifi",
    kv "internet" "internet",
    kv "email" "email",
    kv "app" "app",
    kv "gym" "gym",
    kv "workout" "workout",
    kv "diet" "diet",
    kv "protein" "protein",
    kv "training" "training",
    kv "practice" "practice",
    kv "youtube" "youtube",
    kv "instagram" "instagram",
    kv "whatsapp" "whatsapp",
    kv "google" "google",
    kv "bus" "bus",
    kv "train" "train",
    kv "bike" "bike",
    kv "car" "car",
    kv "home" "home",
    kv "room" "room",
    kv "food" "food",
    kv "water" "water",
    kv "money" "money",
    kv "time" "time",
    kv "gate" "gate",
    kv "iit" "iit",
    kv "eldermate" "eldermate",
    kv "raspberry" "raspberry",
    kv "pi" "pi",
    kv "going" "veltunna",
    kv "goed" "vellaa",
    kv "went" "vellaa",
    kv "will go" "velta",
    kv "can go" "ellu galanu",
    kv "cannot go" "ellu ledu",
    kv "can't go" "ellu ledu",
    kv "want to go" "ellu kavali",
    kv "need to go" "ellu kavali",
    kv "have to go" "ellu kavali",
    kv "must go" "ellu tappadu",
    kv "please go" "please ellu",
    kv "comeing" "vastunna",
    kv "coming" "vastunna",
    kv "comeed" "vachaa",
    kv "came" "vachaa",
    kv "will come" "vasta",
    kv "can come" "ra galanu",
    kv "cannot come" "ra ledu",
    kv "can't come" "ra ledu",
    kv "want to come" "ra kavali",
    kv "need to come" "ra kavali",
    kv "have to come" "ra kavali",
    kv "must come" "ra tappadu",
    kv "please come" "please ra",
    kv "doing" "chestunna",
    kv "doed" "chesaa",
    kv "did" "chesaa",
    kv "will do" "chestaa",
    kv "can do" "chey galanu",
    kv "cannot do" "chey ledu",
    kv "can't do" "chey ledu",
    kv "want to do" "chey kavali",
    kv "need to do" "chey kavali",
    kv "have to do" "chey kavali",
    kv "must do" "chey tappadu",
    kv "please do" "please chey",
    kv "eating" "tintunna",
    kv "eated" "tinna",
    kv "ate" "tinna",
    kv "will eat" "tintaa",
    kv "can eat" "tinu galanu",
    kv "cannot eat" "tinu ledu",
    kv "can't eat" "tinu ledu",
    kv "want to eat" "tinu kavali",
    kv "need to eat" "tinu kavali",
    kv "have to eat" "tinu kavali",
    kv "must eat" "tinu tappadu",
    kv "please eat" "please tinu",
    kv "drinking" "taagutunna",
    kv "drinked" "taaga",
    kv "drank" "taaga",
    kv "will drink" "taagtaa",
    kv "can drink" "taagu galanu",
    kv "cannot drink" "taagu ledu",
    kv "can't drink" "taagu ledu",
    kv "want to drink" "taagu kavali",
    kv "need to drink" "taagu kavali",
    kv "have to drink" "taagu kavali",
    kv "must drink" "taagu tappadu",
    kv "please drink" "please taagu",
    kv "sleeping" "nidra potunna",
    kv "sleeped" "nidra poya",
    kv "slept" "nidra poya",
    kv "will sleep" "nidra potaa",
    kv "can sleep" "nidra galanu",
    kv "cannot sleep" "nidra ledu",
    kv "can't sleep" "nidra ledu",
    kv "want to sleep" "nidra kavali",
    kv "need to sleep" "nidra kavali",
    kv "have to sleep" "nidra kavali",
    kv "must sleep" "nidra tappadu",
    kv "please sleep" "please nidra",
    kv "studying" "chaduvutunna",
    kv "studyed" "chadivaa",
    kv "will study" "chaduvutaa",
    kv "can study" "chaduvu galanu",
    kv "cannot study" "chaduvu ledu",
    kv "can't study" "chaduvu ledu",
    kv "want to study" "chaduvu kavali",
    kv "need to study" "chaduvu kavali",
    kv "have to study" "chaduvu kavali",
    kv "must study" "chaduvu tappadu",
    kv "please study" "please chaduvu",
    kv "working" "panichestunna",
    kv "worked" "pani chesaa",
    kv "will work" "panichestaa",
    kv "can work" "pani galanu",
    kv "cannot work" "pani ledu",
    kv "can't work" "pani ledu",
    kv "want to work" "pani kavali",
    kv "need to work" "pani kavali",
    kv "have to work" "pani kavali",
    kv "must work" "pani tappadu",
    kv "please work" "please pani",
    kv "waiting" "agutunna",
    kv "waited" "agaa",
    kv "will wait" "aguta",
    kv "can wait" "agu galanu",
    kv "cannot wait" "agu ledu",
    kv "can't wait" "agu ledu",
    kv "want to wait" "agu kavali",
    kv "need to wait" "agu kavali",
    kv "have to wait" "agu kavali",
    kv "must wait" "agu tappadu",
    kv "please wait" "please agu",
    kv "stoping" "aapestunna",
    kv "stoped" "aapesaa",
    kv "will stop" "aapestaa",
    kv "can stop" "aapu galanu",
    kv "cannot stop" "aapu ledu",
    kv "can't stop" "aapu ledu",
    kv "want to stop" "aapu kavali",
    kv "need to stop" "aapu kavali",
    kv "have to stop" "aapu kavali",
    kv "must stop" "aapu tappadu",
    kv "please stop" "please aapu",
    kv "seeing" "chustunna",
    kv "seing" "chustunna",
    kv "seeed" "chusaa",
    kv "will see" "chustaa",
    kv "can see" "choodu galanu",
    kv "cannot see" "choodu ledu",
    kv "can't see" "choodu ledu",
    kv "want to see" "choodu kavali",
    kv "need to see" "choodu kavali",
    kv "have to see" "choodu kavali",
    kv "must see" "choodu tappadu",
    kv "please see" "please choodu",
    kv "watching" "chustunna",
    kv "watched" "chusaa",
    kv "will watch" "chustaa",
    kv "can watch" "choodu galanu",
    kv "cannot watch" "choodu ledu",
    kv "can't watch" "choodu ledu",
    kv "want to watch" "choodu kavali",
    kv "need to watch" "choodu kavali",
    kv "have to watch" "choodu kavali",
    kv "must watch" "choodu tappadu",
    kv "please watch" "please choodu",
    kv "telling" "cheptunna",
    kv "telled" "cheppaa",
    kv "will tell" "cheptaa",
    kv "can tell" "cheppu galanu",
    kv "cannot tell" "cheppu ledu",
    kv "can't tell" "cheppu ledu",
    kv "want to tell" "cheppu kavali",
    kv "need to tell" "cheppu kavali",
    kv "have to tell" "cheppu kavali",
    kv "must tell" "cheppu tappadu",
    kv "please tell" "please cheppu" ]

set_option maxRecDepth 100000 in
set_option maxHeartbeats 4000000 in
/-- Value of the verb-expansion fold over the first five verbs. -/
theorem vchunk1_eq :
    (verb_bank.take 5).foldl (fun d p => expandVerb d p.1 p.2) DICT_STAGE3 = DICT_V5 := by decide

set_option maxRecDepth 100000 in
set_option maxHeartbeats 4000000 in
/-- Value of the verb-expansion fold over the next four verbs. -/
theorem vchunk2_eq :
    ((verb_bank.drop 5).take 4).foldl (fun d p => expandVerb d p.1 p.2) DICT_V5 = DICT_V9 := by decide

set_option maxRecDepth 100000 in
set_option maxHeartbeats 4000000 in
/-- Value of the verb-expansion fold over the next four verbs. -/
theorem vchunk3_eq :
    ((verb_bank.drop 9).take 4).foldl (fun d p => expandVerb d p.1 p.2) DICT_V9 = DICT_V13 := by decide

set_option maxRecDepth 100000 in
set_option maxHeartbeats 4000000 in
/-- Value of the verb-expansion fold over the last four verbs. -/
theorem vchunk4_eq :
    ((verb_bank.drop 13).take 4).foldl (fun d p => expandVerb d p.1 p.2) DICT_V13 = DICT := by decide

/-- Value of the builder's verb-expansion fold. -/
theorem stage4_eq :
    verb_bank.foldl (fun d p => expandVerb d p.1 p.2) DICT_STAGE3 = DICT := by
  have hsplit : verb_bank
      = verb_bank.take 5 ++ ((verb_bank.drop 5).take 4
        ++ ((verb_bank.drop 9).take 4 ++ (verb_bank.drop 13).take 4)) := by rfl
  rw [hsplit, List.foldl_append, List.foldl_append, List.foldl_append,
      vchunk1_eq, vchunk2_eq, vchunk3_eq, vchunk4_eq]

/-- The builder is deterministic; this records its full output. -/
theorem build_tenglish_dictionary_eq : build_tenglish_dictionary = DICT := by
  simp only [build_tenglish_dictionary]
  rw [stage1_eq, stage2_eq, stage3_eq, stage4_eq]

/-- `KEEP_ENGLISH_DEFAULT` of the source. -/
def KEEP_ENGLISH_DEFAULT : List Str :=
  [ "wifi", "internet", "phone", "mobile", "laptop", "app", "email",
    "office", "meeting", "project", "assignment", "deadline",
    "class", "college", "gym", "workout", "diet", "protein", "training", "practice",
    "youtube", "instagram", "whatsapp", "google",
    "bus", "train", "bike", "car",
    "gate", "iit", "eldermate", "raspberry", "pi",
    "camera", "robot" ].map String.data

/-- `to_title_like` of the source. -/
def to_title_like (original converted : Str) : Str :=
  match original with
  | [] => converted
  | o :: _ =>
    if isUpperA o && !converted.isEmpty then
      match converted with
      | [] => converted
      | c :: cs => toUpperA c :: cs
    else converted

/-- The `glue_set` literal inside `convert_to_tenglish`. -/
def glue_set : List Str :=
  [ "i", "you", "me", "my", "your", "is", "am", "are", "was", "were",
    "no", "yes", "now", "today", "tomorrow", "yesterday",
    "what", "why", "how", "where", "when", "who",
    "and", "but", "because", "so", "then", "please", "sorry", "very",
    "to", "in", "with", "on", "at", "from", "for", "about", "before",
    "after" ].map String.data

/-- The body of the per-token loop of `convert_to_tenglish`. -/
def convert_token (telugu_strength : Int) (keep_english_nouns : Bool)
    (word_dict : List (Str × Str)) (keep_english_set : List Str) (tok : Str) : Str :=
  if !is_word tok then tok
  else
    let orig := tok
    let w := pyLower tok
    let w_s := english_plural_to_singular w
    if keep_english_nouns && (keep_english_set.contains w || keep_english_set.contains w_s)
    then w
    else if pyDictMem word_dict w || pyDictMem word_dict w_s then
      if 35 ≤ telugu_strength then
        to_title_like orig (pyDictGet word_dict w (pyDictGet word_dict w_s w))
      else if glue_set.contains w || glue_set.contains w_s then
        to_title_like orig (pyDictGet word_dict w (pyDictGet word_dict w_s w))
      else w
    else w

/-- Stable insertion into a list kept in descending key-length order (later
elements of equal length go after earlier ones). -/
def insertDesc (x : Str) : List Str → List Str
  | [] => [x]
  | y :: ys => if x.length ≤ y.length then y :: insertDesc x ys else x :: y :: ys

/-- `sorted(keys, key=len, reverse=True)`: stable, descending by length. -/
def sortLenDesc (l : List Str) : List Str := l.foldl (fun acc x => insertDesc x acc) []

/-- The multiword keys of the dictionary (`" " in k`), longest first. -/
def multiword_keys (word_dict : List (Str × Str)) : List Str :=
  sortLenDesc ((word_dict.map Prod.fst).filter (fun k => k.contains ' '))

/-- The multiword-replacement pass of `convert_to_tenglish`: every multiword
key, longest first, substituted case-insensitively with word boundaries. -/
def multiwordPass (word_dict : List (Str × Str)) (result : Str) : Str :=
  (multiword_keys word_dict).foldl
    (fun r k => subWordAll true k (pyDictGet word_dict k []) r) result

/-- The postposition-styling pass: `\bto\b → ki`, `\bin\b → lo`,
`\bwith\b → tho`, in that order, case-sensitively. -/
def postpositionPass (result : Str) : Str :=
  subWordAll false "with".data "tho".data
    (subWordAll false "in".data "lo".data
      (subWordAll false "to".data "ki".data result))

/-- `result.replace("?", " ra?")`. -/
def replaceQmark : Str → Str
  | [] => []
  | c :: rest => (if c = '?' then " ra?".data else [c]) ++ replaceQmark rest

/-- The Telangana-slang pass of `convert_to_tenglish`. -/
def slangPass (result : Str) : Str :=
  if result.contains '?' then
    if !(containsWordB "ra".data result || containsWordB "rey".data result
          || containsWordB "bro".data result) then
      replaceQmark result
    else result
  else
    if decide ((pySplit result).length ≤ 7)
        && !(containsWordB "ra".data result || containsWordB "rey".data result) then
      result ++ " ra".data
    else result

/-- The polite-ending pass: if the result ends (ignoring trailing
whitespace) with a letter or apostrophe (`re.search(r"[a-zA-Z']\s*$", ...)`),
strip it and append `" andi"`. -/
def politePass (result : Str) : Str :=
  match result.reverse.dropWhile isSpaceA with
  | [] => result
  | c :: _ => if isLetterA c || c = '\'' then pyStrip result ++ " andi".data else result

/-- Fueled scan behind `cleanupPunct`: `re.sub(r"\s+([.!?,;:])", r"\1", s)`
removes each whitespace run that immediately precedes a punctuation mark. -/
def cleanupPunctF : Nat → Str → Str
  | _, [] => []
  | 0, s => s
  | fuel + 1, c :: rest =>
    if isSpaceA c then
      match (c :: rest).dropWhile isSpaceA with
      | [] => c :: rest
      | p :: tl =>
        if isPunctA p then p :: cleanupPunctF fuel tl
        else ((c :: rest).takeWhile isSpaceA) ++ p :: cleanupPunctF fuel tl
    else c :: cleanupPunctF fuel rest

/-- The final punctuation-spacing cleanup of `convert_to_tenglish`. -/
def cleanupPunct (s : Str) : Str := cleanupPunctF s.length s

/-- `convert_to_tenglish` of the source (parameters in source order). -/
def convert_to_tenglish (text : Str) (telugu_strength : Int)
    (keep_english_nouns polite_mode add_postpositions add_telangana_slang : Bool)
    (word_dict : List (Str × Str)) (keep_english_set : List Str) : Str :=
  if (pyStrip text).isEmpty then []
  else
    let t := apply_phrase_rules text
    let tokens := tokenize t
    let out := tokens.map (convert_token telugu_strength keep_english_nouns word_dict keep_english_set)
    let result := joinSpace out
    let result := multiwordPass word_dict result
    let result := if add_postpositions then postpositionPass result else result
    let result := if add_telangana_slang then slangPass result else result
    let result := if polite_mode then politePass result else result
    normalize_spaces (cleanupPunct result)

/-- No character of `s` is an ASCII upper-case letter. -/
abbrev lowerOK (s : Str) : Prop := ∀ c ∈ s, isUpperA c = false

/-! ## Helper lemmas -/

set_option maxRecDepth 100000

/-- A substitution scan with no boundary-delimited occurrence of the pattern
leaves the string unchanged. -/
theorem subGo_id (ci : Bool) (pat rep : Str) :
    ∀ (fuel : Nat) (prevW : Bool) (s : Str), occGo ci pat prevW s = false →
      subGo ci pat rep fuel prevW s = s := by
  intro fuel
  induction fuel with
  | zero => intro prevW s h; cases s <;> simp [subGo]
  | succ fuel ih =>
    intro prevW s h
    cases s with
    | nil => simp [subGo]
    | cons a rest =>
      simp only [occGo, Bool.or_eq_false_iff] at h
      rw [subGo]
      simp [h.1, ih _ _ h.2]

/-- `subWordAll` with no boundary-delimited occurrence is the identity. -/
theorem subWordAll_id (ci : Bool) (pat rep s : Str)
    (h : occGo ci pat false s = false) : subWordAll ci pat rep s = s :=
  subGo_id ci pat rep s.length false s h

/-- A space-free pattern is a prefix of `x ++ ' ' :: y` exactly when it is a
prefix of `x`. -/
theorem isPrefixOf_append_space (pat : Str) :
    ' ' ∉ pat → ∀ x y : Str, pat.isPrefixOf (x ++ ' ' :: y) = pat.isPrefixOf x := by
  induction pat with
  | nil => intro _ x y; simp [List.isPrefixOf]
  | cons p ps ih =>
    intro hsp x y
    cases x with
    | nil =>
      have hp : (p == ' ') = false :=
        beq_eq_false_iff_ne.mpr (fun h => hsp (by rw [← h]; exact List.mem_cons_self _ _))
      simp [List.isPrefixOf, hp]
    | cons a x' =>
      show (p == a && ps.isPrefixOf (x' ++ ' ' :: y)) = (p == a && ps.isPrefixOf x')
      rw [ih (fun h => hsp (List.mem_cons_of_mem _ h)) x' y]

/-- Lower-casing a string distributes over an inserted space. -/
theorem map_toLowerA_append_space (x y : Str) :
    (x ++ ' ' :: y).map toLowerA = x.map toLowerA ++ ' ' :: y.map toLowerA := by
  rw [List.map_append, List.map_cons, show toLowerA ' ' = ' ' from rfl]

/-- A true case-optional prefix test bounds the pattern's length. -/
theorem ciPrefix_length_le {ci : Bool} {pat s : Str}
    (h : (if ci then pat.isPrefixOf (s.map toLowerA) else pat.isPrefixOf s) = true) :
    pat.length ≤ s.length := by
  cases hci : ci
  · rw [hci, if_neg (by decide : ¬ (false = true))] at h
    exact (List.isPrefixOf_iff_prefix.mp h).length_le
  · rw [hci, if_pos rfl] at h
    have := (List.isPrefixOf_iff_prefix.mp h).length_le
    simpa using this

/-- A successful boundary match of a nonempty pattern needs at least the
pattern's length of input. -/
theorem bMatch_length_le (ci : Bool) (pat : Str) (prevW : Bool) (s : Str)
    (h : bMatch ci pat prevW s = true) : pat.length ≤ s.length := by
  unfold bMatch at h
  simp only [Bool.and_eq_true] at h
  exact ciPrefix_length_le h.1.1

/-- For a nonempty, space-free pattern, the boundary match at the head of
`(c :: x') ++ ' ' :: y` agrees with the boundary match at the head of
`c :: x'`: the separator space behaves like the end of the string. -/
theorem bMatch_append_space (ci : Bool) (pat : Str) (hpat : pat ≠ []) (hsp : ' ' ∉ pat)
    (prevW : Bool) (c : Char) (x' y : Str) :
    bMatch ci pat prevW ((c :: x') ++ ' ' :: y) = bMatch ci pat prevW (c :: x') := by
  have hA1 : pat.isPrefixOf ((c :: x') ++ ' ' :: y) = pat.isPrefixOf (c :: x') :=
    isPrefixOf_append_space pat hsp _ _
  have hA2 : pat.isPrefixOf (((c :: x') ++ ' ' :: y).map toLowerA)
      = pat.isPrefixOf ((c :: x').map toLowerA) := by
    rw [map_toLowerA_append_space]
    exact isPrefixOf_append_space pat hsp _ _
  unfold bMatch
  rw [hA1, hA2]
  by_cases hA : (if ci then pat.isPrefixOf ((c :: x').map toLowerA)
      else pat.isPrefixOf (c :: x')) = true
  · have hlen : pat.length ≤ (c :: x').length := ciPrefix_length_le hA
    have hdrop : ((c :: x') ++ ' ' :: y).drop pat.length
        = (c :: x').drop pat.length ++ ' ' :: y := List.drop_append_of_le_length hlen
    rw [hdrop]
    cases hz : (c :: x').drop pat.length with
    | nil => rfl
    | cons d ds => rfl
  · have hA' : (if ci then pat.isPrefixOf ((c :: x').map toLowerA)
        else pat.isPrefixOf (c :: x')) = false := by
      cases hv : (if ci then pat.isPrefixOf ((c :: x').map toLowerA)
          else pat.isPrefixOf (c :: x'))
      · rfl
      · exact absurd hv hA
    rw [hA']
    rfl

/-- The substitution scan does not depend on the fuel, as long as the fuel
covers the scanned string's length. -/
theorem subGo_fuel_congr (ci : Bool) (pat rep : Str) :
    ∀ (L : Nat) (s : Str), s.length ≤ L → ∀ (n m : Nat) (prevW : Bool),
      s.length ≤ n → s.length ≤ m →
      subGo ci pat rep n prevW s = subGo ci pat rep m prevW s := by
  intro L
  induction L with
  | zero =>
    intro s hs n m prevW _ _
    have hnil : s = [] := List.eq_nil_of_length_eq_zero (Nat.le_zero.mp hs)
    subst hnil
    cases n <;> cases m <;> simp [subGo]
  | succ L ih =>
    intro s hs n m prevW hn hm
    cases s with
    | nil => cases n <;> cases m <;> simp [subGo]
    | cons c rest =>
      simp only [List.length_cons] at hs hn hm
      cases n with
      | zero => omega
      | succ n' =>
        cases m with
        | zero => omega
        | succ m' =>
          rw [subGo, subGo]
          by_cases hcond : (!pat.isEmpty && bMatch ci pat prevW (c :: rest)) = true
          · rw [if_pos hcond, if_pos hcond]
            have hk : 0 < pat.length := by
              have hcond2 := hcond
              simp only [Bool.and_eq_true] at hcond2
              obtain ⟨h1, _⟩ := hcond2
              cases pat
              · simp at h1
              · simp
            congr 1
            apply ih
            · simp only [List.length_drop, List.length_cons]; omega
            · simp only [List.length_drop, List.length_cons]; omega
            · simp only [List.length_drop, List.length_cons]; omega
          · rw [if_neg hcond, if_neg hcond]
            congr 1
            apply ih <;> omega

/-- The substitution scan of a nonempty, space-free pattern at a string
starting with a space. -/
theorem subGo_space_head (ci : Bool) (pat rep : Str) (hpat : pat ≠ []) (hsp : ' ' ∉ pat)
    (y : Str) (prevW : Bool) (n : Nat) (hn : (' ' :: y).length ≤ n) :
    subGo ci pat rep n prevW (' ' :: y) = ' ' :: subGo ci pat rep y.length false y := by
  simp only [List.length_cons] at hn
  cases n with
  | zero => omega
  | succ n' =>
    obtain ⟨p, ps, rfl⟩ : ∃ p ps, pat = p :: ps := by
      cases pat
      · exact absurd rfl hpat
      · exact ⟨_, _, rfl⟩
    have hp : (p == ' ') = false :=
      beq_eq_false_iff_ne.mpr (fun h => hsp (by rw [← h]; exact List.mem_cons_self _ _))
    have hb : bMatch ci (p :: ps) prevW (' ' :: y) = false := by
      unfold bMatch
      have hpre : (if ci then (p :: ps).isPrefixOf ((' ' :: y).map toLowerA)
          else (p :: ps).isPrefixOf (' ' :: y)) = false := by
        cases ci
        · simp [List.isPrefixOf, hp]
        · simp [List.isPrefixOf, show toLowerA ' ' = ' ' from rfl, hp]
      rw [hpre]
      rfl
    have hcond : ¬ ((!(p :: ps).isEmpty && bMatch ci (p :: ps) prevW (' ' :: y)) = true) := by
      rw [hb]
      simp
    rw [subGo, if_neg hcond, show isWordCharA ' ' = false from rfl]
    congr 1
    exact subGo_fuel_congr ci (p :: ps) rep y.length y le_rfl n' y.length false (by omega) le_rfl

/-- The substitution scan of a nonempty, space-free pattern distributes over
a space: the two sides of the space are scanned independently. -/
theorem subGo_split (ci : Bool) (pat rep : Str) (hpat : pat ≠ []) (hsp : ' ' ∉ pat) :
    ∀ (B : Nat) (x : Str), x.length ≤ B → ∀ (y : Str) (prevW : Bool) (n : Nat),
      (x ++ ' ' :: y).length ≤ n →
      subGo ci pat rep n prevW (x ++ ' ' :: y)
        = subGo ci pat rep x.length prevW x ++ ' ' :: subGo ci pat rep y.length false y := by
  intro B
  induction B with
  | zero =>
    intro x hx y prevW n hn
    have hxnil : x = [] := List.eq_nil_of_length_eq_zero (Nat.le_zero.mp hx)
    subst hxnil
    simpa [subGo] using subGo_space_head ci pat rep hpat hsp y prevW n (by simpa using hn)
  | succ B ih =>
    intro x hx y prevW n hn
    cases x with
    | nil =>
      simpa [subGo] using subGo_space_head ci pat rep hpat hsp y prevW n (by simpa using hn)
    | cons c x' =>
      have hk : 0 < pat.length := List.length_pos.mpr hpat
      simp only [List.length_cons] at hx
      simp only [List.cons_append, List.length_cons, List.length_append] at hn
      cases n with
      | zero => omega
      | succ n' =>
        have hbm : bMatch ci pat prevW (c :: (x' ++ ' ' :: y)) = bMatch ci pat prevW (c :: x') := by
          have := bMatch_append_space ci pat hpat hsp prevW c x' y
          simpa [List.cons_append] using this
        simp only [List.cons_append, List.length_cons]
        rw [subGo, subGo]
        by_cases hm : (!pat.isEmpty && bMatch ci pat prevW (c :: x')) = true
        · have hmL : (!pat.isEmpty && bMatch ci pat prevW (c :: (x' ++ ' ' :: y))) = true := by
            rw [hbm]; exact hm
          rw [if_pos hmL, if_pos hm]
          have hlen : pat.length ≤ (c :: x').length := by
            have hm2 := hm
            simp only [Bool.and_eq_true] at hm2
            exact bMatch_length_le ci pat prevW (c :: x') hm2.2
          have hdrop : (c :: (x' ++ ' ' :: y)).drop pat.length
              = (c :: x').drop pat.length ++ ' ' :: y := by
            rw [show c :: (x' ++ ' ' :: y) = (c :: x') ++ ' ' :: y from rfl]
            exact List.drop_append_of_le_length hlen
          rw [hdrop, List.append_assoc]
          congr 1
          have hX2B : ((c :: x').drop pat.length).length ≤ B := by
            simp only [List.length_drop, List.length_cons]
            omega
          have hX2n : (((c :: x').drop pat.length) ++ ' ' :: y).length ≤ n' := by
            simp only [List.length_append, List.length_drop, List.length_cons]
            omega
          rw [ih ((c :: x').drop pat.length) hX2B y (isWordCharA (pat.getLastD ' ')) n' hX2n]
          congr 1
          exact subGo_fuel_congr ci pat rep ((c :: x').drop pat.length).length _ le_rfl
            _ _ _ le_rfl (by simp only [List.length_drop, List.length_cons]; omega)
        · have hmL : ¬ ((!pat.isEmpty && bMatch ci pat prevW (c :: (x' ++ ' ' :: y))) = true) := by
            rw [hbm]; exact hm
          rw [if_neg hmL, if_neg hm, List.cons_append]
          congr 1
          exact ih x' (by omega) y (isWordCharA c) n' (by simp only [List.length_append, List.length_cons]; omega)

/-- `subWordAll` of a nonempty, space-free pattern distributes over a
space-separated concatenation. -/
theorem subWordAll_split (ci : Bool) (pat rep : Str) (hpat : pat ≠ []) (hsp : ' ' ∉ pat)
    (x y : Str) :
    subWordAll ci pat rep (x ++ ' ' :: y)
      = subWordAll ci pat rep x ++ ' ' :: subWordAll ci pat rep y :=
  subGo_split ci pat rep hpat hsp x.length x le_rfl y false _ le_rfl

/-- Lower-casing never produces an ASCII upper-case letter. -/
theorem isUpperA_toLowerA (c : Char) : isUpperA (toLowerA c) = false := by
  unfold toLowerA
  cases hb : isUpperA c with
  | false => simp [hb]
  | true =>
    simp only [hb, if_true]
    have hbb : 65 ≤ c.toNat ∧ c.toNat ≤ 90 := by
      unfold isUpperA at hb
      simpa [Bool.and_eq_true, decide_eq_true_iff] using hb
    obtain ⟨h1, h2⟩ := hbb
    obtain ⟨n, hn⟩ : ∃ n, c.toNat = n := ⟨_, rfl⟩
    rw [hn] at h1 h2 ⊢
    clear hn hb
    interval_cases n <;> decide

/-- A lowered string has no upper-case letters. -/
theorem pyLower_lowerOK (s : Str) : lowerOK (pyLower s) := by
  intro c hc
  simp only [pyLower, List.mem_map] at hc
  obtain ⟨a, _, rfl⟩ := hc
  exact isUpperA_toLowerA a

/-- Every character that the substitution scan emits comes from the
replacement or from the scanned string. -/
theorem subGo_mem (ci : Bool) (pat rep : Str) :
    ∀ (fuel : Nat) (prevW : Bool) (s : Str) (c : Char),
      c ∈ subGo ci pat rep fuel prevW s → c ∈ rep ∨ c ∈ s := by
  intro fuel
  induction fuel with
  | zero =>
    intro prevW s c hc
    cases s with
    | nil => simp [subGo] at hc
    | cons a rest => right; simpa [subGo] using hc
  | succ fuel ih =>
    intro prevW s c hc
    cases s with
    | nil => simp [subGo] at hc
    | cons a rest =>
      rw [subGo] at hc
      by_cases hm : (!pat.isEmpty && bMatch ci pat prevW (a :: rest)) = true
      · rw [if_pos hm] at hc
        rcases List.mem_append.mp hc with h | h
        · exact Or.inl h
        · rcases ih _ _ _ h with h' | h'
          · exact Or.inl h'
          · exact Or.inr (List.drop_subset _ _ h')
      · rw [if_neg hm] at hc
        rcases List.mem_cons.mp hc with rfl | h
        · exact Or.inr (List.mem_cons_self _ _)
        · rcases ih _ _ _ h with h' | h'
          · exact Or.inl h'
          · exact Or.inr (List.mem_cons_of_mem _ h')

/-- `subWordAll` preserves freedom from upper-case letters. -/
theorem subWordAll_lowerOK (ci : Bool) (pat rep s : Str)
    (hrep : lowerOK rep) (hs : lowerOK s) : lowerOK (subWordAll ci pat rep s) := by
  intro c hc
  rcases subGo_mem ci pat rep s.length false s c hc with h | h
  · exact hrep c h
  · exact hs c h

/-- The tokenizer's punctuation substitution only adds spaces, a backslash
and a digit. -/
theorem punctSpace_lowerOK (s : Str) (hs : lowerOK s) : lowerOK (punctSpace s) := by
  induction s with
  | nil => intro c hc; simp [punctSpace] at hc
  | cons a rest ih =>
    intro c hc
    rw [punctSpace] at hc
    rcases List.mem_append.mp hc with h | h
    · by_cases hp : isPunctA a = true
      · rw [if_pos hp] at h
        simp only [List.mem_cons, List.not_mem_nil, or_false] at h
        rcases h with rfl | rfl | rfl | rfl <;> decide
      · rw [if_neg hp] at h
        simp only [List.mem_cons, List.not_mem_nil, or_false] at h
        subst h; exact hs _ (List.mem_cons_self _ _)
    · exact ih (fun x hx => hs x (List.mem_cons_of_mem _ hx)) c h

/-- Characters of split pieces come from the split string. -/
theorem pySplitF_mem (fuel : Nat) :
    ∀ (s t : Str), t ∈ pySplitF fuel s → ∀ c ∈ t, c ∈ s := by
  induction fuel with
  | zero => intro s t ht; cases s <;> simp [pySplitF] at ht
  | succ fuel ih =>
    intro s t ht c hc
    cases s with
    | nil => simp [pySplitF] at ht
    | cons a rest =>
      rw [pySplitF] at ht
      by_cases hsp : isSpaceA a = true
      · rw [if_pos hsp] at ht
        exact List.mem_cons_of_mem _ (ih rest t ht c hc)
      · rw [if_neg hsp] at ht
        rcases List.mem_cons.mp ht with rfl | h
        · exact (List.takeWhile_sublist _).subset hc
        · exact (List.dropWhile_sublist _).subset (ih _ t h c hc)

/-- All tokens of a lower-case text are lower-case. -/
theorem tokenize_lowerOK (text : Str) (h : lowerOK text) :
    ∀ t ∈ tokenize text, lowerOK t := by
  intro t ht c hc
  have h1 : t ∈ pySplit (punctSpace text) := List.mem_of_mem_filter ht
  have h2 : c ∈ punctSpace text := pySplitF_mem _ _ t h1 c hc
  exact punctSpace_lowerOK text h c h2

/-- Joining lower-case tokens with spaces stays lower-case. -/
theorem joinSpace_lowerOK (l : List Str) (h : ∀ t ∈ l, lowerOK t) :
    lowerOK (joinSpace l) := by
  induction l with
  | nil => intro c hc; simp [joinSpace] at hc
  | cons x xs ih =>
    cases xs with
    | nil =>
      intro c hc
      exact h x (List.mem_cons_self _ _) c (by simpa [joinSpace] using hc)
    | cons y ys =>
      intro c hc
      rw [joinSpace] at hc
      rcases List.mem_append.mp hc with hx | hy
      · exact h x (List.mem_cons_self _ _) c hx
      · rcases List.mem_cons.mp hy with rfl | hy'
        · decide
        · exact ih (fun t ht => h t (List.mem_cons_of_mem _ ht)) c hy'

/-- Whitespace collapsing stays lower-case. -/
theorem collapseWsF_lowerOK (fuel : Nat) :
    ∀ s : Str, lowerOK s → lowerOK (collapseWsF fuel s) := by
  induction fuel with
  | zero =>
    intro s hs
    cases s with
    | nil => intro c hc; simp [collapseWsF] at hc
    | cons a rest => simpa [collapseWsF] using hs
  | succ fuel ih =>
    intro s hs c hc
    cases s with
    | nil => simp [collapseWsF] at hc
    | cons a rest =>
      rw [collapseWsF] at hc
      by_cases hsp : isSpaceA a = true
      · rw [if_pos hsp] at hc
        rcases List.mem_cons.mp hc with rfl | h
        · decide
        · exact ih _ (fun x hx => hs x (List.mem_cons_of_mem _
            ((List.dropWhile_sublist _).subset hx))) c h
      · rw [if_neg hsp] at hc
        rcases List.mem_cons.mp hc with rfl | h
        · exact hs _ (List.mem_cons_self _ _)
        · exact ih rest (fun x hx => hs x (List.mem_cons_of_mem _ hx)) c h

/-- Stripping keeps only characters of the original string. -/
theorem pyStrip_subset (s : Str) : pyStrip s ⊆ s := by
  intro c hc
  unfold pyStrip at hc
  rw [List.mem_reverse] at hc
  have h1 := (List.dropWhile_sublist (l := (s.dropWhile isSpaceA).reverse) isSpaceA).subset hc
  rw [List.mem_reverse] at h1
  exact (List.dropWhile_sublist _).subset h1

/-- `normalize_spaces` stays lower-case. -/
theorem normalize_spaces_lowerOK (s : Str) (hs : lowerOK s) :
    lowerOK (normalize_spaces s) := by
  intro c hc
  exact collapseWsF_lowerOK s.length s hs c (pyStrip_subset _ hc)

/-- The punctuation-spacing cleanup only removes characters. -/
theorem cleanupPunctF_subset (fuel : Nat) : ∀ s : Str, cleanupPunctF fuel s ⊆ s := by
  induction fuel with
  | zero => intro s c hc; cases s <;> simpa [cleanupPunctF] using hc
  | succ fuel ih =>
    intro s c hc
    cases s with
    | nil => simp [cleanupPunctF] at hc
    | cons a rest =>
      rw [cleanupPunctF] at hc
      by_cases hsp : isSpaceA a = true
      · rw [if_pos hsp] at hc
        split at hc
        · exact hc
        · rename_i p tl heq
          have hdp : ∀ x, x ∈ p :: tl → x ∈ a :: rest := by
            intro x hx
            rw [← heq] at hx
            exact (List.dropWhile_sublist _).subset hx
          by_cases hp : isPunctA p = true
          · rw [if_pos hp] at hc
            rcases List.mem_cons.mp hc with rfl | h
            · exact hdp c (List.mem_cons_self _ _)
            · exact hdp c (List.mem_cons_of_mem _ (ih tl h))
          · rw [if_neg hp] at hc
            rcases List.mem_append.mp hc with h | h
            · exact (List.takeWhile_sublist _).subset h
            · rcases List.mem_cons.mp h with rfl | h'
              · exact hdp c (List.mem_cons_self _ _)
              · exact hdp c (List.mem_cons_of_mem _ (ih tl h'))
      · rw [if_neg hsp] at hc
        rcases List.mem_cons.mp hc with rfl | h
        · exact List.mem_cons_self _ _
        · exact List.mem_cons_of_mem _ (ih rest h)

/-- The cleanup pass stays lower-case. -/
theorem cleanupPunct_lowerOK (s : Str) (hs : lowerOK s) : lowerOK (cleanupPunct s) :=
  fun c hc => hs c (cleanupPunctF_subset _ _ hc)

/-- `replace("?", " ra?")` stays lower-case. -/
theorem replaceQmark_lowerOK (s : Str) (hs : lowerOK s) : lowerOK (replaceQmark s) := by
  induction s with
  | nil => intro c hc; simp [replaceQmark] at hc
  | cons a rest ih =>
    intro c hc
    rw [replaceQmark] at hc
    rcases List.mem_append.mp hc with h | h
    · by_cases hq : a = '?'
      · rw [if_pos hq] at h
        simp only [List.mem_cons, List.not_mem_nil, or_false] at h
        rcases h with rfl | rfl | rfl | rfl <;> decide
      · rw [if_neg hq] at h
        simp only [List.mem_cons, List.not_mem_nil, or_false] at h
        subst h; exact hs _ (List.mem_cons_self _ _)
    · exact ih (fun x hx => hs x (List.mem_cons_of_mem _ hx)) c h

/-- The slang pass stays lower-case. -/
theorem slangPass_lowerOK (r : Str) (hr : lowerOK r) : lowerOK (slangPass r) := by
  unfold slangPass
  split
  · split
    · exact replaceQmark_lowerOK r hr
    · exact hr
  · split
    · intro c hc
      rcases List.mem_append.mp hc with h | h
      · exact hr c h
      · simp only [List.mem_cons, List.not_mem_nil, or_false] at h
        rcases h with rfl | rfl | rfl <;> decide
    · exact hr

/-- The polite pass stays lower-case. -/
theorem politePass_lowerOK (r : Str) (hr : lowerOK r) : lowerOK (politePass r) := by
  unfold politePass
  split
  · exact hr
  · split
    · intro c hc
      rcases List.mem_append.mp hc with h | h
      · exact hr c (pyStrip_subset _ h)
      · simp only [List.mem_cons, List.not_mem_nil, or_false] at h
        rcases h with rfl | rfl | rfl | rfl | rfl <;> decide
    · exact hr

/-- A dictionary lookup with lower-case values and default is lower-case. -/
theorem pyDictGet_lowerOK (d : List (Str × Str)) (k dflt : Str)
    (hd : ∀ e ∈ d, lowerOK e.2) (hdf : lowerOK dflt) : lowerOK (pyDictGet d k dflt) := by
  unfold pyDictGet
  split
  · rename_i e heq
    exact hd e (List.mem_of_find?_eq_some heq)
  · exact hdf

/-- When the original token is lower-case, `to_title_like` is the identity on
the replacement. -/
theorem to_title_like_of_lower (orig conv : Str) (h : lowerOK orig) :
    to_title_like orig conv = conv := by
  unfold to_title_like
  cases orig with
  | nil => rfl
  | cons o os =>
    have ho : isUpperA o = false := h o (List.mem_cons_self _ _)
    simp [ho]

/-- The per-token translation of a lower-case token is lower-case, provided
all dictionary values are. -/
theorem convert_token_lowerOK (strength : Int) (kf : Bool) (d : List (Str × Str))
    (ks : List Str) (tok : Str) (htok : lowerOK tok)
    (hd : ∀ e ∈ d, lowerOK e.2) :
    lowerOK (convert_token strength kf d ks tok) := by
  have hw : lowerOK (pyLower tok) := pyLower_lowerOK tok
  have hrep : lowerOK (pyDictGet d (pyLower tok)
      (pyDictGet d (english_plural_to_singular (pyLower tok)) (pyLower tok))) :=
    pyDictGet_lowerOK _ _ _ hd (pyDictGet_lowerOK _ _ _ hd hw)
  simp only [convert_token]
  split
  · exact htok
  · split
    · exact hw
    · split
      · split
        · rw [to_title_like_of_lower _ _ htok]; exact hrep
        · split
          · rw [to_title_like_of_lower _ _ htok]; exact hrep
          · exact hw
      · exact hw

/-- Folding the phrase rules over a lower-case string stays lower-case. -/
theorem phrase_foldl_lowerOK :
    ∀ l : List (Str × Str), (∀ pr ∈ l, lowerOK pr.2) → ∀ t : Str, lowerOK t →
      lowerOK (l.foldl (fun t pr => subWordAll true pr.1 pr.2 t) t) := by
  intro l
  induction l with
  | nil => intro _ t ht; simpa using ht
  | cons p ps ih =>
    intro hl t ht
    simp only [List.foldl_cons]
    exact ih (fun pr hpr => hl pr (List.mem_cons_of_mem _ hpr)) _
      (subWordAll_lowerOK _ _ _ _ (hl p (List.mem_cons_self _ _)) ht)

/-- The phrase stage always emits lower-case text. -/
theorem apply_phrase_rules_lowerOK (text : Str) : lowerOK (apply_phrase_rules text) := by
  unfold apply_phrase_rules
  exact phrase_foldl_lowerOK PHRASES (by decide) _ (pyLower_lowerOK text)

/-- Folding multiword substitutions stays lower-case when the dictionary
values are lower-case. -/
theorem mw_foldl_lowerOK (d : List (Str × Str)) (hd : ∀ e ∈ d, lowerOK e.2) :
    ∀ (keysL : List Str) (r : Str), lowerOK r →
      lowerOK (keysL.foldl (fun r k => subWordAll true k (pyDictGet d k []) r) r) := by
  intro keysL
  induction keysL with
  | nil => intro r hr; simpa using hr
  | cons k ks ih =>
    intro r hr
    simp only [List.foldl_cons]
    exact ih _ (subWordAll_lowerOK _ _ _ _
      (pyDictGet_lowerOK d k [] hd (fun c hc => absurd hc (List.not_mem_nil c))) hr)

/-- The multiword pass stays lower-case. -/
theorem multiwordPass_lowerOK (d : List (Str × Str)) (hd : ∀ e ∈ d, lowerOK e.2)
    (r : Str) (hr : lowerOK r) : lowerOK (multiwordPass d r) :=
  mw_foldl_lowerOK d hd _ r hr

/-- The postposition pass stays lower-case. -/
theorem postpositionPass_lowerOK (r : Str) (hr : lowerOK r) :
    lowerOK (postpositionPass r) := by
  unfold postpositionPass
  exact subWordAll_lowerOK _ _ _ _ (by decide)
    (subWordAll_lowerOK _ _ _ _ (by decide)
      (subWordAll_lowerOK _ _ _ _ (by decide) hr))

set_option maxHeartbeats 1000000 in
/-- Every value of the built dictionary is lower-case. -/
theorem build_dict_values_lowerOK : ∀ e ∈ build_tenglish_dictionary, lowerOK e.2 := by
  rw [build_tenglish_dictionary_eq]
  decide

/-- An optional in-place pass preserves freedom from upper-case letters. -/
theorem lowerOK_ite (b : Bool) (f : Str → Str) (r : Str)
    (hf : lowerOK r → lowerOK (f r)) (hr : lowerOK r) :
    lowerOK (if b then f r else r) := by
  split
  · exact hf hr
  · exact hr

/-! ## Claim theorems -/

/-- C1 (status: code_bug): the spec and the app's own example strings expect
`tokenize` to keep each punctuation mark as its own token, but the source's
replacement string `r" \\1 "` escapes the backreference, so every punctuation
mark is replaced by a literal `\1`: `tokenize("now.")` is `["now", "\1"]`,
and end-to-end the trailing `"."` of the input is lost — the output ends in
`" \1"` instead of `"."`. -/
theorem C1_tokenize_punctuation_lost :
    tokenize "now.".data = ["now".data, "\\1".data]
  ∧ convert_to_tenglish "now.".data 65 true false true false
      build_tenglish_dictionary KEEP_ENGLISH_DEFAULT = "ippudu \\1".data := by
  constructor
  · decide
  · rw [build_tenglish_dictionary_eq]; decide

set_option maxHeartbeats 1000000 in
/-- C2 counterexample: the claim's strength-0 clause fails for the full
pipeline — "go" is a dictionary key and not in the glue set, yet
`convert("will go")` at strength 0 is `"velta"`: the multiword pass is
strength-independent and translates the phrase "will go" anyway, so "go"
does not remain in English in the output. -/
theorem C2_strength_zero_counterexample :
    convert_to_tenglish "will go".data 0 true false false false
      build_tenglish_dictionary KEEP_ENGLISH_DEFAULT = "velta".data
  ∧ pyDictMem build_tenglish_dictionary "go".data = true
  ∧ glue_set.contains "go".data = false
  ∧ ¬ ("go".data <:+: "velta".data) := by
  refine ⟨?_, ?_, by decide, by decide⟩
  · rw [build_tenglish_dictionary_eq]; decide
  · rw [build_tenglish_dictionary_eq]; decide

/-- C2 as amended: the strength gating holds at the per-token stage — for a
word token covered by the dictionary (under its lowercase or
heuristic-singular form) and not excluded by the keep-English check, the
token stage translates it whenever `strength ≥ 35`; below the threshold it
translates it exactly when the lowercase or singular form is in the glue
set, and otherwise emits it untranslated in lowercase.  The later multiword
pass is strength-independent, so the claim's "remain in English in the
output" clause does not extend to tokens consumed by a multiword key match
(see the counterexample). -/
theorem C2_strength_gating (telugu_strength : Int) (keep_english_nouns : Bool)
    (word_dict : List (Str × Str)) (keep_english_set : List Str) (tok : Str)
    (hw : is_word tok = true)
    (hdict : (pyDictMem word_dict (pyLower tok)
        || pyDictMem word_dict (english_plural_to_singular (pyLower tok))) = true)
    (hkeep : keep_english_nouns = true →
        pyLower tok ∉ keep_english_set
          ∧ english_plural_to_singular (pyLower tok) ∉ keep_english_set) :
    (35 ≤ telugu_strength →
      convert_token telugu_strength keep_english_nouns word_dict keep_english_set tok
        = to_title_like tok (pyDictGet word_dict (pyLower tok)
            (pyDictGet word_dict (english_plural_to_singular (pyLower tok)) (pyLower tok))))
  ∧ (telugu_strength < 35 →
      convert_token telugu_strength keep_english_nouns word_dict keep_english_set tok
        = if pyLower tok ∈ glue_set
              ∨ english_plural_to_singular (pyLower tok) ∈ glue_set
          then to_title_like tok (pyDictGet word_dict (pyLower tok)
                 (pyDictGet word_dict (english_plural_to_singular (pyLower tok)) (pyLower tok)))
          else pyLower tok) := by
  constructor
  · intro h35
    simp [convert_token, hw, hdict, h35] <;>
      (intro hkf hmem
       rcases hkeep hkf with ⟨ha, hb⟩
       rcases hmem with hm | hm <;> contradiction)
  · intro h35
    have h35' : ¬ (35 ≤ telugu_strength) := by omega
    by_cases hg : (pyLower tok ∈ glue_set
        ∨ english_plural_to_singular (pyLower tok) ∈ glue_set)
    · simp [convert_token, hw, hdict, h35', hg] <;>
        (intro hkf hmem
         rcases hkeep hkf with ⟨ha, hb⟩
         rcases hmem with hm | hm <;> contradiction)
    · simp [convert_token, hw, hdict, h35', hg] <;>
        (intro hkf hmem
         rcases hkeep hkf with ⟨ha, hb⟩
         rcases hmem with hm | hm <;> contradiction)

set_option maxHeartbeats 1000000 in
/-- Witness for C2: at strength 0 the glue word "today" is still translated
(`ivala`); at strength 100 the dictionary word "tomorrow" is translated
(`repu`). -/
theorem C2_strength_gating_witness :
    convert_token 0 true build_tenglish_dictionary KEEP_ENGLISH_DEFAULT "today".data
      = "ivala".data
  ∧ convert_token 100 true build_tenglish_dictionary KEEP_ENGLISH_DEFAULT "tomorrow".data
      = "repu".data := by
  constructor
  · have h := (C2_strength_gating 0 true build_tenglish_dictionary KEEP_ENGLISH_DEFAULT
      "today".data (by decide)
      (by rw [build_tenglish_dictionary_eq]; decide) (by decide)).2 (by omega)
    rw [h, build_tenglish_dictionary_eq]; decide
  · have h := (C2_strength_gating 100 true build_tenglish_dictionary KEEP_ENGLISH_DEFAULT
      "tomorrow".data (by decide)
      (by rw [build_tenglish_dictionary_eq]; decide) (by decide)).1 (by omega)
    rw [h, build_tenglish_dictionary_eq]; decide

set_option maxHeartbeats 1000000 in
/-- C3 counterexample: keep-English words are not "never translated" by the
full pipeline.  "to" placed in the (user-extensible) keep-English set is
rewritten by the postposition pass — the output is `"ki"`, which does not
contain `"to"` at all.  And with every styling pass disabled, the
strength-independent multiword pass still consumes kept tokens: with "i" and
"am" in the keep-English set, `convert("i am")` is `"nenu unna"`. -/
theorem C3_keep_english_counterexample :
    convert_to_tenglish "to".data 65 true false true false build_tenglish_dictionary
      (KEEP_ENGLISH_DEFAULT ++ ["to".data]) = "ki".data
  ∧ "to".data ∈ KEEP_ENGLISH_DEFAULT ++ ["to".data]
  ∧ ¬ ("to".data <:+: "ki".data)
  ∧ convert_to_tenglish "i am".data 65 true false false false build_tenglish_dictionary
      (KEEP_ENGLISH_DEFAULT ++ ["i".data, "am".data]) = "nenu unna".data
  ∧ "i".data ∈ KEEP_ENGLISH_DEFAULT ++ ["i".data, "am".data]
  ∧ "am".data ∈ KEEP_ENGLISH_DEFAULT ++ ["i".data, "am".data] := by
  refine ⟨?_, by decide, by decide, ?_, by decide, by decide⟩
  · rw [build_tenglish_dictionary_eq]; decide
  · rw [build_tenglish_dictionary_eq]; decide

/-- C3 as amended: with keep-English-nouns enabled, the per-token stage
emits the lowercase form of any token whose lowercase or singular form is in
the keep-English set, regardless of dictionary coverage and strength.  This
does not guarantee the word survives to the output: the strength-independent
multiword phrase pass can consume it (kept "i"/"am" still become
"nenu unna" via the "i am" key), and the postposition styling pass rewrites
a kept "to"/"in"/"with". -/
theorem C3_keep_english_token_stage (telugu_strength : Int)
    (word_dict : List (Str × Str)) (keep_english_set : List Str) (tok : Str)
    (hw : is_word tok = true)
    (hk : pyLower tok ∈ keep_english_set
        ∨ english_plural_to_singular (pyLower tok) ∈ keep_english_set) :
    convert_token telugu_strength true word_dict keep_english_set tok = pyLower tok := by
  rcases hk with hm | hm <;> simp [convert_token, hw, hm]

set_option maxHeartbeats 1000000 in
/-- Witness for C3's amended theorem: the keep-English noun "Office" is
emitted as its lowercase form by the token stage. -/
theorem C3_keep_english_token_stage_witness :
    convert_token 65 true build_tenglish_dictionary KEEP_ENGLISH_DEFAULT "Office".data
      = "office".data := by
  have h := C3_keep_english_token_stage 65 build_tenglish_dictionary KEEP_ENGLISH_DEFAULT
    "Office".data (by decide) (by decide)
  exact h.trans (by decide)

set_option maxHeartbeats 1000000 in
/-- C4 counterexample: under the default configuration the output for
`"Thanks a lot"` is not `"Chala thanks"`. -/
theorem C4_capitalization_counterexample :
    convert_to_tenglish "Thanks a lot".data 65 true false true false
      build_tenglish_dictionary KEEP_ENGLISH_DEFAULT ≠ "Chala thanks".data := by
  rw [build_tenglish_dictionary_eq]; decide

set_option maxHeartbeats 1000000 in
/-- C4 as amended: `to_title_like` does restore a leading capital onto a
replacement when its `original` argument starts with an upper-case letter,
but `apply_phrase_rules` lowercases the whole input before tokenization, so
in the pipeline the restoration never fires and the scenario
`"Thanks a lot"` produces the all-lowercase `"chala thanks"`. -/
theorem C4_lowercased_scenario :
    convert_to_tenglish "Thanks a lot".data 65 true false true false
      build_tenglish_dictionary KEEP_ENGLISH_DEFAULT = "chala thanks".data
  ∧ ∀ (o : Char) (os : Str) (c : Char) (cs : Str), isUpperA o = true →
      to_title_like (o :: os) (c :: cs) = toUpperA c :: cs := by
  constructor
  · rw [build_tenglish_dictionary_eq]; decide
  · intro o os c cs ho
    simp [to_title_like, ho]

/-- Witness for C4's amended theorem: `to_title_like "Go" "ellu" = "Ellu"`. -/
theorem C4_lowercased_scenario_witness :
    to_title_like "Go".data "ellu".data = "Ellu".data := by
  have h := C4_lowercased_scenario.2 'G' "o".data 'e' "llu".data (by decide)
  exact h.trans (by decide)

/-- C5 counterexample: the builder's self-mapped noun list and the default
keep-English set are not the same — "home" is only in the former, "camera"
only in the latter. -/
theorem C5_keep_sets_differ :
    ("home".data ∈ keep_nouns ∧ "home".data ∉ KEEP_ENGLISH_DEFAULT)
  ∧ ("camera".data ∈ KEEP_ENGLISH_DEFAULT ∧ "camera".data ∉ keep_nouns) := by
  refine ⟨⟨by decide, by decide⟩, by decide, by decide⟩

/-- C5 as amended: the two keep-as-English mechanisms agree except that the
builder's noun list additionally holds home, room, food, water, money and
time, and the default keep-English set additionally holds camera and
robot. -/
theorem C5_keep_sets_difference :
    keep_nouns.filter (fun w => !(KEEP_ENGLISH_DEFAULT.contains w))
      = ["home", "room", "food", "water", "money", "time"].map String.data
  ∧ KEEP_ENGLISH_DEFAULT.filter (fun w => !(keep_nouns.contains w))
      = ["camera", "robot"].map String.data := by
  constructor <;> decide

set_option maxHeartbeats 1000000 in
/-- C6 counterexample: `"to'day"` is a single word token (letters and
apostrophes), yet the postposition pass rewrites the `to` inside it, because
the regex `\b` treats the apostrophe as a word boundary. -/
theorem C6_postposition_inside_token :
    is_word "to'day".data = true
  ∧ postpositionPass "to'day".data = "ki'day".data
  ∧ convert_to_tenglish "to'day".data 65 true false true false
      build_tenglish_dictionary KEEP_ENGLISH_DEFAULT = "ki'day".data := by
  refine ⟨by decide, by decide, ?_⟩
  rw [build_tenglish_dictionary_eq]; decide

/-- C6 as amended: the postposition pass rewrites exactly the
word-boundary-delimited occurrences of "to"/"in"/"with": a space-delimited
standalone "to"/"in"/"with" becomes "ki"/"lo"/"tho" while the surrounding
text — arbitrary, as long as it carries no boundary-delimited occurrence of
its own (e.g. "tomorrow") — is left unchanged, and a string with no
occurrence at all is left completely unchanged.  (Apostrophes count as
boundaries, so the pass can still rewrite these sequences inside an
apostrophe-containing token, as the counterexample records.) -/
theorem C6_postposition_frame :
    (∀ u w : Str,
      containsWordB "to".data u = false → containsWordB "in".data u = false →
      containsWordB "with".data u = false → containsWordB "to".data w = false →
      containsWordB "in".data w = false → containsWordB "with".data w = false →
      postpositionPass (u ++ " to ".data ++ w) = u ++ " ki ".data ++ w
      ∧ postpositionPass (u ++ " in ".data ++ w) = u ++ " lo ".data ++ w
      ∧ postpositionPass (u ++ " with ".data ++ w) = u ++ " tho ".data ++ w)
  ∧ (∀ r : Str,
      containsWordB "to".data r = false → containsWordB "in".data r = false →
      containsWordB "with".data r = false →
      postpositionPass r = r) := by
  constructor
  · intro u w hu1 hu2 hu3 hw1 hw2 hw3
    refine ⟨?_, ?_, ?_⟩
    · have hshape : u ++ " to ".data ++ w = u ++ ' ' :: ("to".data ++ ' ' :: w) := by
        rw [List.append_assoc]
        rfl
      unfold postpositionPass
      rw [hshape,
          subWordAll_split false "to".data "ki".data (by decide) (by decide) u _,
          subWordAll_split false "to".data "ki".data (by decide) (by decide) "to".data w,
          subWordAll_id false "to".data "ki".data u hu1,
          subWordAll_id false "to".data "ki".data w hw1,
          show subWordAll false "to".data "ki".data "to".data = "ki".data from by decide,
          subWordAll_split false "in".data "lo".data (by decide) (by decide) u _,
          subWordAll_split false "in".data "lo".data (by decide) (by decide) "ki".data w,
          subWordAll_id false "in".data "lo".data u hu2,
          subWordAll_id false "in".data "lo".data w hw2,
          show subWordAll false "in".data "lo".data "ki".data = "ki".data from by decide,
          subWordAll_split false "with".data "tho".data (by decide) (by decide) u _,
          subWordAll_split false "with".data "tho".data (by decide) (by decide) "ki".data w,
          subWordAll_id false "with".data "tho".data u hu3,
          subWordAll_id false "with".data "tho".data w hw3,
          show subWordAll false "with".data "tho".data "ki".data = "ki".data from by decide]
      rw [List.append_assoc]
      rfl
    · have hshape : u ++ " in ".data ++ w = u ++ ' ' :: ("in".data ++ ' ' :: w) := by
        rw [List.append_assoc]
        rfl
      unfold postpositionPass
      rw [hshape,
          subWordAll_split false "to".data "ki".data (by decide) (by decide) u _,
          subWordAll_split false "to".data "ki".data (by decide) (by decide) "in".data w,
          subWordAll_id false "to".data "ki".data u hu1,
          subWordAll_id false "to".data "ki".data w hw1,
          show subWordAll false "to".data "ki".data "in".data = "in".data from by decide,
          subWordAll_split false "in".data "lo".data (by decide) (by decide) u _,
          subWordAll_split false "in".data "lo".data (by decide) (by decide) "in".data w,
          subWordAll_id false "in".data "lo".data u hu2,
          subWordAll_id false "in".data "lo".data w hw2,
          show subWordAll false "in".data "lo".data "in".data = "lo".data from by decide,
          subWordAll_split false "with".data "tho".data (by decide) (by decide) u _,
          subWordAll_split false "with".data "tho".data (by decide) (by decide) "lo".data w,
          subWordAll_id false "with".data "tho".data u hu3,
          subWordAll_id false "with".data "tho".data w hw3,
          show subWordAll false "with".data "tho".data "lo".data = "lo".data from by decide]
      rw [List.append_assoc]
      rfl
    · have hshape : u ++ " with ".data ++ w = u ++ ' ' :: ("with".data ++ ' ' :: w) := by
        rw [List.append_assoc]
        rfl
      unfold postpositionPass
      rw [hshape,
          subWordAll_split false "to".data "ki".data (by decide) (by decide) u _,
          subWordAll_split false "to".data "ki".data (by decide) (by decide) "with".data w,
          subWordAll_id false "to".data "ki".data u hu1,
          subWordAll_id false "to".data "ki".data w hw1,
          show subWordAll false "to".data "ki".data "with".data = "with".data from by decide,
          subWordAll_split false "in".data "lo".data (by decide) (by decide) u _,
          subWordAll_split false "in".data "lo".data (by decide) (by decide) "with".data w,
          subWordAll_id false "in".data "lo".data u hu2,
          subWordAll_id false "in".data "lo".data w hw2,
          show subWordAll false "in".data "lo".data "with".data = "with".data from by decide,
          subWordAll_split false "with".data "tho".data (by decide) (by decide) u _,
          subWordAll_split false "with".data "tho".data (by decide) (by decide) "with".data w,
          subWordAll_id false "with".data "tho".data u hu3,
          subWordAll_id false "with".data "tho".data w hw3,
          show subWordAll false "with".data "tho".data "with".data = "tho".data from by decide]
      rw [List.append_assoc]
      rfl
  · intro r h1 h2 h3
    unfold postpositionPass
    rw [subWordAll_id false "to".data "ki".data r h1,
        subWordAll_id false "in".data "lo".data r h2,
        subWordAll_id false "with".data "tho".data r h3]

/-- Witness for C6's amended theorem: a standalone "to" between "tomorrow"
and "office" is rewritten while both neighbours stay unchanged, and
"tomorrow" alone is unaffected. -/
theorem C6_postposition_frame_witness :
    postpositionPass "tomorrow to office".data = "tomorrow ki office".data
  ∧ postpositionPass "tomorrow".data = "tomorrow".data := by
  constructor
  · have h := (C6_postposition_frame.1 "tomorrow".data "office".data
      (by decide) (by decide) (by decide) (by decide) (by decide) (by decide)).1
    rw [show "tomorrow to office".data
        = "tomorrow".data ++ " to ".data ++ "office".data from by decide, h]
    decide
  · exact C6_postposition_frame.2 "tomorrow".data (by decide) (by decide) (by decide)

set_option maxHeartbeats 1000000 in
/-- C7 counterexample: `"come here now"` is a 3-word statement with no
question mark, yet with Telangana slang enabled the output is
`"ra here ippudu"` ("come" translates to "ra", which blocks the append), so
the output does not end with `" ra"`. -/
theorem C7_three_word_statement_counterexample :
    convert_to_tenglish "come here now".data 65 true false false true
      build_tenglish_dictionary KEEP_ENGLISH_DEFAULT = "ra here ippudu".data
  ∧ ¬ (" ra".data <:+ "ra here ippudu".data) := by
  refine ⟨?_, by decide⟩
  rw [build_tenglish_dictionary_eq]; decide

/-- C7 as amended: on the intermediate result, if it contains "?" and no
standalone "ra"/"rey"/"bro", " ra" is inserted before each "?"; if it
contains no "?", has at most 7 whitespace-delimited words, and no standalone
"ra"/"rey", " ra" is appended — for a 3-word statement the append therefore
happens only when no standalone "ra"/"rey" made it into the result. -/
theorem C7_slang_rules (r : Str) :
    (('?' ∈ r ∧ containsWordB "ra".data r = false
        ∧ containsWordB "rey".data r = false ∧ containsWordB "bro".data r = false) →
      slangPass r = replaceQmark r)
  ∧ (('?' ∉ r ∧ (pySplit r).length ≤ 7
        ∧ containsWordB "ra".data r = false ∧ containsWordB "rey".data r = false) →
      slangPass r = r ++ " ra".data) := by
  constructor
  · rintro ⟨h1, h2, h3, h4⟩
    simp [slangPass, h1, h2, h3, h4]
  · rintro ⟨h1, h2, h3, h4⟩
    simp [slangPass, h1, h2, h3, h4]

/-- Witness for C7's amended theorem: a short question-mark-free result with
no "ra"/"rey" gets " ra" appended. -/
theorem C7_slang_rules_witness :
    slangPass "em chestunnav".data = "em chestunnav ra".data := by
  have h := (C7_slang_rules "em chestunnav".data).2 ⟨by decide, by decide, by decide, by decide⟩
  exact h.trans (by decide)

/-- C8: whitespace-only input (the empty string included) hits the explicit
early return and yields the empty output, for every configuration,
dictionary and keep-English set. -/
theorem C8_whitespace_empty (text : Str) (telugu_strength : Int)
    (kf pm pp sl : Bool) (word_dict : List (Str × Str)) (keep_english_set : List Str)
    (h : text.all isSpaceA = true) :
    convert_to_tenglish text telugu_strength kf pm pp sl word_dict keep_english_set = [] := by
  have hd : text.dropWhile isSpaceA = [] :=
    List.dropWhile_eq_nil_iff.mpr (by simpa [List.all_eq_true] using h)
  have hs : pyStrip text = [] := by simp [pyStrip, hd]
  simp [convert_to_tenglish, hs]

/-- Witness for C8: the empty string and a whitespace-only string give empty
output. -/
theorem C8_whitespace_empty_witness :
    convert_to_tenglish "".data 65 true false true false
      build_tenglish_dictionary KEEP_ENGLISH_DEFAULT = []
  ∧ convert_to_tenglish " \t ".data 0 false true true true
      build_tenglish_dictionary KEEP_ENGLISH_DEFAULT = [] :=
  ⟨C8_whitespace_empty _ _ _ _ _ _ _ _ (by decide),
   C8_whitespace_empty _ _ _ _ _ _ _ _ (by decide)⟩

/-- C9: the conversion depends on the strength only through the predicate
`35 ≤ strength`, so any two strengths on the same side of the threshold give
identical output — out-of-range strengths degrade gracefully (below 0 like
0, above 100 like any value satisfying the threshold). -/
theorem C9_strength_threshold_congruence (text : Str) (s1 s2 : Int)
    (kf pm pp sl : Bool) (word_dict : List (Str × Str)) (keep_english_set : List Str)
    (h : 35 ≤ s1 ↔ 35 ≤ s2) :
    convert_to_tenglish text s1 kf pm pp sl word_dict keep_english_set
      = convert_to_tenglish text s2 kf pm pp sl word_dict keep_english_set := by
  have ht : convert_token s1 kf word_dict keep_english_set
      = convert_token s2 kf word_dict keep_english_set := by
    funext tok
    by_cases h35 : 35 ≤ s1
    · simp [convert_token, h35, h.mp h35]
    · have h35' : ¬ 35 ≤ s2 := fun hh => h35 (h.mpr hh)
      simp [convert_token, h35, h35']
  simp only [convert_to_tenglish, ht]

set_option maxHeartbeats 1000000 in
/-- Witness for C9: strength −5 behaves like 0, and 101 like 35. -/
theorem C9_strength_threshold_congruence_witness :
    convert_to_tenglish "go".data (-5) true false false false
        build_tenglish_dictionary KEEP_ENGLISH_DEFAULT
      = convert_to_tenglish "go".data 0 true false false false
        build_tenglish_dictionary KEEP_ENGLISH_DEFAULT
  ∧ convert_to_tenglish "go".data 101 true false false false
        build_tenglish_dictionary KEEP_ENGLISH_DEFAULT
      = convert_to_tenglish "go".data 35 true false false false
        build_tenglish_dictionary KEEP_ENGLISH_DEFAULT :=
  ⟨C9_strength_threshold_congruence _ _ _ _ _ _ _ _ _ (by omega),
   C9_strength_threshold_congruence _ _ _ _ _ _ _ _ _ (by omega)⟩

/-- The full pipeline, run with the built dictionary, emits no ASCII
upper-case letter. -/
theorem convert_lowerOK (text : Str) (telugu_strength : Int)
    (kf pm pp sl : Bool) (keep_english_set : List Str) :
    lowerOK (convert_to_tenglish text telugu_strength kf pm pp sl
      build_tenglish_dictionary keep_english_set) := by
  simp only [convert_to_tenglish]
  split
  · intro c hc; exact absurd hc (List.not_mem_nil c)
  · apply normalize_spaces_lowerOK
    apply cleanupPunct_lowerOK
    apply lowerOK_ite pm politePass
    · exact politePass_lowerOK _
    · apply lowerOK_ite sl slangPass
      · exact slangPass_lowerOK _
      · apply lowerOK_ite pp postpositionPass
        · exact postpositionPass_lowerOK _
        · apply multiwordPass_lowerOK _ build_dict_values_lowerOK
          apply joinSpace_lowerOK
          intro t ht
          rcases List.mem_map.mp ht with ⟨u, hu, rfl⟩
          exact convert_token_lowerOK _ _ _ _ u
            (tokenize_lowerOK _ (apply_phrase_rules_lowerOK text) u hu)
            build_dict_values_lowerOK

/-- C10: with the built dictionary, the output of the conversion never
contains an ASCII upper-case letter, for every input text, strength,
configuration flags and keep-English set — the phrase stage lowercases the
whole input, every dictionary value and appended suffix is lower-case, and
untranslated tokens are emitted in lowercase. -/
theorem C10_no_uppercase (text : Str) (telugu_strength : Int)
    (kf pm pp sl : Bool) (keep_english_set : List Str) :
    (convert_to_tenglish text telugu_strength kf pm pp sl
      build_tenglish_dictionary keep_english_set).all (fun c => !isUpperA c) = true := by
  rw [List.all_eq_true]
  intro c hc
  have h := convert_lowerOK text telugu_strength kf pm pp sl keep_english_set c hc
  simp [h]

end Tenglish

